import Mathlib

/-!
# Verification of the pc-gui-agent orchestration core

A shallow embedding, in Lean 4, of the parts of the `pc-gui-agent`
repository that the specification talks about:

* `src/core/error_handler.py` — `ErrorHandler` (recovery strategy,
  confidence, retry delay);
* `src/tools/registry.py` — `ToolRegistry.execute`;
* `src/core/workflow_executor.py` — `WorkflowExecutor.execute_workflow`;
* `src/core/agent_executor.py` — `AgentExecutor.execute_task`;
* `src/mcp/client.py` — `MCPClient.connect` / `MCPClient.call_tool`;
* `src/llm/self_consistency.py` — `SelfConsistencyGenerator`;
* `src/core/planner.py` — `Planner._parse_plan_response` and
  `Planner._validate_plan_data`.

Modelling conventions:

* Python `float` arithmetic is modelled by `ℚ`.  Every numeric computation
  the theorems below inspect (products of the decimal literals `0.3`, `0.7`,
  `0.9`, `0.95`, powers of two, `min`/`max`, and averages of those values)
  is exact in IEEE double precision, so the rational model agrees with the
  Python semantics on every value a theorem mentions.
* Python values passed around as `Dict[str, Any]` / JSON data are modelled
  by the inductive type `PyObj` below (dicts are insertion-ordered
  association lists, as in CPython).
* Python exceptions are modelled with `Except PyErr`; a function that
  catches all exceptions and therefore cannot raise is given a total type.
* Calls into external collaborators (the LLM oracle, the worker, the MCP
  wire and child process, `eval` of workflow condition strings) are
  modelled by explicit function parameters, universally quantified in the
  theorems, so a theorem about an executor holds for every possible
  behaviour of its collaborators.
-/

/-- Python values (`None`, `bool`, numbers, `str`, `list`, `dict`): the
payload type of the JSON-shaped data flowing through planner, registry and
voting code.  Dicts are insertion-ordered association lists. -/
inductive PyObj where
  | none : PyObj
  | bool (b : Bool) : PyObj
  | num (q : ℚ) : PyObj
  | str (s : String) : PyObj
  | arr (items : List PyObj) : PyObj
  | obj (fields : List (String × PyObj)) : PyObj

/-- Python exceptions relevant to the embedded code. -/
inductive PyErr where
  | jsonDecode (msg : String) (pos lineno colno : ℕ) : PyErr
  | valueError (msg : String) : PyErr
  | typeError (msg : String) : PyErr
  | runtimeError (msg : String) : PyErr
  | other (msg : String) : PyErr
deriving DecidableEq, Repr

/-- `str.lower()`, modelled on the character list (ASCII case folding,
which is all the embedded call sites use). -/
def pyLower (s : String) : String := ⟨s.data.map Char.toLower⟩

/-- Python's substring test `needle in hay` on strings. -/
def pySubstr (needle hay : String) : Bool := decide (needle.data <:+: hay.data)

/-- Python's `", ".join(l)`-style join. -/
def pyJoin (sep : String) : List String → String
  | [] => ""
  | [x] => x
  | x :: xs => x ++ sep ++ pyJoin sep xs

mutual

/-- Structural equality of `PyObj` values (Python `==` on JSON-shaped
data). -/
def PyObj.beq : PyObj → PyObj → Bool
  | .none, .none => true
  | .bool a, .bool b => a == b
  | .num a, .num b => a == b
  | .str a, .str b => a == b
  | .arr a, .arr b => PyObj.beqList a b
  | .obj a, .obj b => PyObj.beqFields a b
  | _, _ => false

/-- Elementwise equality of `PyObj` lists. -/
def PyObj.beqList : List PyObj → List PyObj → Bool
  | [], [] => true
  | x :: xs, y :: ys => PyObj.beq x y && PyObj.beqList xs ys
  | _, _ => false

/-- Pairwise equality of dict field lists. -/
def PyObj.beqFields : List (String × PyObj) → List (String × PyObj) → Bool
  | [], [] => true
  | (k1, v1) :: xs, (k2, v2) :: ys =>
    k1 == k2 && PyObj.beq v1 v2 && PyObj.beqFields xs ys
  | _, _ => false

end

instance : BEq PyObj := ⟨PyObj.beq⟩

namespace PyObj

/-- Python truthiness of a value (`bool(x)`): `None`, `False`, `0`, `""`,
`[]` and `{}` are falsy, everything else truthy. -/
def truthy : PyObj → Bool
  | .none => false
  | .bool b => b
  | .num q => q != 0
  | .str s => s != ""
  | .arr items => items != []
  | .obj fields => fields != []

/-- Dict lookup (`d[k]` success case on a dict). -/
def lookup (k : String) : PyObj → Option PyObj
  | .obj fields => fields.lookup k
  | _ => Option.none

/-- `d.get(k, default)` on a dict; on a non-dict the attribute access
raises (modelled as `typeError`; the exact exception class is
unobservable to the embedded handlers, which catch `Exception`). -/
def get (d : PyObj) (k : String) (default : PyObj) : Except PyErr PyObj :=
  match d with
  | .obj fields =>
    match fields.lookup k with
    | Option.some v => .ok v
    | Option.none => .ok default
  | _ => .error (.typeError "object has no attribute get")

/-- `k in d`: key membership for dicts, substring test for strings,
element membership for lists; `TypeError` on non-containers. -/
def containsKey (k : String) (d : PyObj) : Except PyErr Bool :=
  match d with
  | .obj fields => .ok (fields.any (fun f => f.1 == k))
  | .str s => .ok (pySubstr k s)
  | .arr items => .ok (items.contains (.str k))
  | _ => .error (.typeError "argument is not iterable")

/-- `for x in v`: iteration order of Python containers — list elements,
string characters (as one-character strings), dict keys; `TypeError` on
non-iterables. -/
def items : PyObj → Except PyErr (List PyObj)
  | .arr l => .ok l
  | .str s => .ok (s.data.map (fun c => .str ⟨[c]⟩))
  | .obj fields => .ok (fields.map (fun f => .str f.1))
  | _ => .error (.typeError "object is not iterable")

/-- `len(v)`; `TypeError` on values without a length. -/
def pyLen : PyObj → Except PyErr ℕ
  | .arr l => .ok l.length
  | .str s => .ok s.length
  | .obj fields => .ok fields.length
  | _ => .error (.typeError "object has no len")

/-- `d[k] = v` on a dict: replace the value if the key exists, else append
the pair (CPython keeps insertion order). -/
def setKey (d : PyObj) (k : String) (v : PyObj) : PyObj :=
  match d with
  | .obj fields =>
    if fields.any (fun f => f.1 == k) then
      .obj (fields.map (fun f => if f.1 == k then (k, v) else f))
    else
      .obj (fields ++ [(k, v)])
  | other => other

end PyObj

/-! ## `src/core/error_handler.py` — ErrorHandler

Embeds `ErrorType`, `RecoveryStrategy`, `ErrorContext`, `RecoveryAction`,
`ERROR_RECOVERY_MAP`, `ErrorHandler.get_recovery_strategy`,
`ErrorHandler._calculate_confidence`,
`ErrorHandler._generate_recovery_message` and
`ErrorHandler.get_retry_delay`.  `retry_count` is a `ℕ` (the field starts
at 0 and is only ever incremented by callers). -/

/-- `ErrorType` (error_handler.py line 14). -/
inductive ErrorType where
  | timeout
  | element_not_found
  | permission_denied
  | network_error
  | json_parse_error
  | tool_execution_error
  | validation_error
  | unknown_error
deriving DecidableEq, Repr

/-- `ErrorType.value` — the `str` payload of the enum. -/
def ErrorType.value : ErrorType → String
  | .timeout => "timeout"
  | .element_not_found => "element_not_found"
  | .permission_denied => "permission_denied"
  | .network_error => "network_error"
  | .json_parse_error => "json_parse_error"
  | .tool_execution_error => "tool_execution_error"
  | .validation_error => "validation_error"
  | .unknown_error => "unknown_error"

/-- `RecoveryStrategy` (error_handler.py line 26). -/
inductive RecoveryStrategy where
  | retry
  | skip
  | abort
  | fallback
  | manual_intervention
deriving DecidableEq, Repr

/-- `ErrorContext` (error_handler.py line 35); the fields not read by any
embedded function (exception object, action id, tool name, args, stack
trace, timestamp, metadata) are omitted. -/
structure ErrorContext where
  error_type : ErrorType
  error_message : String := ""
  retry_count : ℕ := 0
deriving DecidableEq, Repr

/-- `RecoveryAction` (error_handler.py line 50); the unused
`fallback_action` field is omitted. -/
structure RecoveryAction where
  strategy : RecoveryStrategy
  should_retry : Bool := false
  retry_delay : ℚ := 1
  max_retries : ℕ := 3
  message : String := ""
  confidence : ℚ := 0
deriving DecidableEq, Repr

/-- `ErrorHandler.ERROR_RECOVERY_MAP` (error_handler.py line 66). -/
def ERROR_RECOVERY_MAP : ErrorType → RecoveryStrategy
  | .timeout => .retry
  | .element_not_found => .retry
  | .network_error => .retry
  | .tool_execution_error => .retry
  | .json_parse_error => .fallback
  | .permission_denied => .abort
  | .validation_error => .abort
  | .unknown_error => .manual_intervention

namespace ErrorHandler

/-- `ErrorHandler._calculate_confidence` (error_handler.py lines 255-295):
strategy base rate, category adjustment for timeout/network retry and for
permission abort, a single 10% decay when `retry_count > 0`, clamped to
[0, 1]. -/
def calculate_confidence (error_context : ErrorContext)
    (strategy : RecoveryStrategy) : ℚ :=
  let base_confidence : ℚ :=
    match strategy with
    | .retry => 7/10
    | .skip => 1/2
    | .abort => 9/10
    | .fallback => 3/5
    | .manual_intervention => 3/10
  let error_type := error_context.error_type
  let base_confidence :=
    if error_type = .timeout ∨ error_type = .network_error then
      if strategy = .retry then (4/5 : ℚ) else base_confidence
    else if error_type = .permission_denied then
      if strategy = .abort then (19/20 : ℚ) else base_confidence
    else base_confidence
  let base_confidence :=
    if error_context.retry_count > 0 then base_confidence * (9/10)
    else base_confidence
  min 1 (max 0 base_confidence)

/-- `ErrorHandler._generate_recovery_message` (error_handler.py
lines 297-323). -/
def generate_recovery_message (error_context : ErrorContext)
    (strategy : RecoveryStrategy) : String :=
  let v := error_context.error_type.value
  let n := toString (error_context.retry_count + 1)
  match strategy with
  | .retry => "检测到" ++ v ++ "错误，将重试（第" ++ n ++ "次）"
  | .skip => "检测到" ++ v ++ "错误，跳过当前步骤"
  | .abort => "检测到" ++ v ++ "错误，中止任务执行"
  | .fallback => "检测到" ++ v ++ "错误，使用备用方案"
  | .manual_intervention => "检测到" ++ v ++ "错误，需要人工干预"

/-- `ErrorHandler.get_recovery_strategy` (error_handler.py lines 199-253):
look up the strategy table, demote `retry` to `skip` (timeout/network) or
`abort` (others) once `retry_count ≥ max_retries`, then compute
`should_retry`, confidence and message. -/
def get_recovery_strategy (error_context : ErrorContext)
    (max_retries : ℕ := 3) (retry_delay : ℚ := 1) : RecoveryAction :=
  let error_type := error_context.error_type
  let retry_count := error_context.retry_count
  let default_strategy := ERROR_RECOVERY_MAP error_type
  let default_strategy :=
    if retry_count ≥ max_retries then
      if default_strategy = .retry then
        if error_type = .timeout ∨ error_type = .network_error then
          RecoveryStrategy.skip
        else
          RecoveryStrategy.abort
      else default_strategy
    else default_strategy
  let should_retry : Bool :=
    default_strategy = .retry ∧ retry_count < max_retries
  let confidence := calculate_confidence error_context default_strategy
  let message := generate_recovery_message error_context default_strategy
  { strategy := default_strategy
    should_retry := should_retry
    retry_delay := retry_delay
    max_retries := max_retries
    message := message
    confidence := confidence }

/-- `ErrorHandler.get_retry_delay` (error_handler.py lines 346-371):
flat `base_delay` without exponential backoff, otherwise
`base_delay * 2 ^ retry_count` capped at 60 seconds. -/
def get_retry_delay (error_context : ErrorContext) (base_delay : ℚ := 1)
    (use_exponential_backoff : Bool := true) : ℚ :=
  if !use_exponential_backoff then base_delay
  else
    let retry_count := error_context.retry_count
    let delay := base_delay * 2 ^ retry_count
    min delay 60

end ErrorHandler

/-- The confidence computation the spec describes for claim C3, built from
the spec's words: the strategy base-rate value after the category
adjustments (network/timeout retry raised to 0.8, permission abort raised
to 0.95), to be decayed "10% per prior retry", i.e. multiplied by
`(9/10) ^ retry_count`.  Compared against the code's
`ErrorHandler.calculate_confidence`, which decays once. -/
def specAdjustedBase (error_type : ErrorType)
    (strategy : RecoveryStrategy) : ℚ :=
  let base : ℚ :=
    match strategy with
    | .retry => 7/10
    | .skip => 1/2
    | .abort => 9/10
    | .fallback => 3/5
    | .manual_intervention => 3/10
  if error_type = .timeout ∨ error_type = .network_error then
    if strategy = .retry then 4/5 else base
  else if error_type = .permission_denied then
    if strategy = .abort then 19/20 else base
  else base

/-- C9: for every error context (retry count `n`) and base delay `b`,
`ErrorHandler.get_retry_delay` returns `min (b * 2 ^ n) 60` with
exponential backoff enabled and exactly `b` with it disabled; in
particular `8` for `b = 1, n = 3` and `60` (the cap) for `b = 1, n = 10`. -/
theorem C9_get_retry_delay_spec (ctx : ErrorContext) (b : ℚ) :
    ErrorHandler.get_retry_delay ctx b true = min (b * 2 ^ ctx.retry_count) 60 ∧
    ErrorHandler.get_retry_delay ctx b false = b ∧
    ErrorHandler.get_retry_delay { error_type := .timeout, retry_count := 3 } 1 true = 8 ∧
    ErrorHandler.get_retry_delay { error_type := .timeout, retry_count := 10 } 1 true = 60 := by
  refine ⟨rfl, rfl, ?_, ?_⟩ <;> norm_num [ErrorHandler.get_retry_delay]

/-- C3 counterexample: a timeout error with two prior retries keeps the
`retry` strategy (2 < 3 = max retries) and gets confidence
`0.8 * 0.9 = 0.72`, whereas the claim's per-retry decay
`0.8 * 0.9 ^ 2 = 0.648` differs: the code multiplies by `0.9` once when
any prior retry exists, not once per prior retry. -/
theorem C3_counterexample :
    (ErrorHandler.get_recovery_strategy
        { error_type := .timeout, retry_count := 2 } 3 1).confidence = 18/25 ∧
    specAdjustedBase .timeout .retry * (9/10 : ℚ) ^ (2 : ℕ) = 81/125 ∧
    (18/25 : ℚ) ≠ 81/125 := by
  refine ⟨?_, ?_, by norm_num⟩ <;>
    norm_num [ErrorHandler.get_recovery_strategy,
      ErrorHandler.calculate_confidence, specAdjustedBase,
      ERROR_RECOVERY_MAP]

/-- The code's `_calculate_confidence` equals the spec's adjusted base
rate times a single `0.9` factor applied iff any prior retry exists,
clamped to [0, 1]. -/
theorem calculate_confidence_eq_spec (ctx : ErrorContext)
    (s : RecoveryStrategy) :
    ErrorHandler.calculate_confidence ctx s =
      min 1 (max 0 (specAdjustedBase ctx.error_type s *
        (if 0 < ctx.retry_count then 9/10 else 1))) := by
  simp only [ErrorHandler.calculate_confidence, specAdjustedBase]
  by_cases h : 0 < ctx.retry_count
  · simp [h]
  · simp [h]

/-- C3 amended: the confidence reported by
`ErrorHandler.get_recovery_strategy` equals the strategy base-rate value
(after the category adjustments for network/timeout retry and permission
abort) multiplied by `0.9` once when the error context records at least
one prior retry — not once per prior retry — and clamped to [0, 1]. -/
theorem C3_confidence_amended (ctx : ErrorContext) (max_retries : ℕ) (d : ℚ) :
    (ErrorHandler.get_recovery_strategy ctx max_retries d).confidence =
      min 1 (max 0 (specAdjustedBase ctx.error_type
          (ErrorHandler.get_recovery_strategy ctx max_retries d).strategy *
        (if 0 < ctx.retry_count then 9/10 else 1))) :=
  calculate_confidence_eq_spec ctx _

/-! ## `src/tools/registry.py` — ToolRegistry -/

/-- `str(e)` of a modelled exception. -/
def PyErr.msg : PyErr → String
  | .jsonDecode m _ _ _ => m
  | .valueError m => m
  | .typeError m => m
  | .runtimeError m => m
  | .other m => m

/-- `BaseTool` as the registry sees it: a name, a description and the
tool's `validate_args` / `execute` behaviour.  The two behaviours are
arbitrary tool code, so they are modelled as functions that may raise. -/
structure BaseTool where
  name : String
  description : String
  validate_args : List (String × PyObj) → Except PyErr Bool
  run : List (String × PyObj) → Except PyErr PyObj

/-- `ToolRegistry` (registry.py line 11): the insertion-ordered `_tools`
dict mapping tool names to tools. -/
structure ToolRegistry where
  _tools : List (String × BaseTool)

namespace ToolRegistry

/-- `ToolRegistry.get` (registry.py lines 39-49). -/
def get (reg : ToolRegistry) (name : String) : Option BaseTool :=
  reg._tools.lookup name

/-- `list(self._tools.keys())` (registry.py line 101). -/
def available_tools (reg : ToolRegistry) : List String :=
  reg._tools.map (fun t => t.1)

/-- The similarly-named-tool filter (registry.py lines 105-108):
`name.lower() in t.lower() or t.lower() in name.lower()`. -/
def similar_tools (reg : ToolRegistry) (name : String) : List String :=
  (reg.available_tools).filter (fun t =>
    pySubstr (pyLower name) (pyLower t) || pySubstr (pyLower t) (pyLower name))

/-- The unknown-tool diagnostic dict of `ToolRegistry.execute`
(registry.py lines 99-123). -/
def unknown_tool_result (reg : ToolRegistry) (name : String) : PyObj :=
  let available_tools := reg.available_tools
  let available_tools_str :=
    if available_tools ≠ [] then pyJoin ", " available_tools else "无"
  let similar_tools := reg.similar_tools name
  let error_msg := "工具 \x27" ++ name ++ "\x27 不存在"
  let suggestion_msg :=
    if similar_tools ≠ [] then
      " 您是否想使用: " ++ pyJoin ", " similar_tools ++ "?"
    else if available_tools ≠ [] then
      " 可用工具: " ++ available_tools_str
    else ""
  .obj [("success", .bool false),
        ("error", .str ("Tool \x27" ++ name ++ "\x27 not found")),
        ("message", .str (error_msg ++ suggestion_msg)),
        ("available_tools", .arr (available_tools.map .str))]

/-- `ToolRegistry.execute` (registry.py lines 87-143).  The function is
total: the unknown-tool branch raises nothing, and every exception the
tool's own code raises is caught and converted into a failure dict. -/
def execute (reg : ToolRegistry) (name : String)
    (args : List (String × PyObj)) : PyObj :=
  match reg.get name with
  | Option.none => reg.unknown_tool_result name
  | Option.some tool =>
    match tool.validate_args args with
    | .error e =>
      .obj [("success", .bool false), ("error", .str e.msg),
            ("message", .str ("工具执行失败: " ++ e.msg))]
    | .ok false =>
      .obj [("success", .bool false), ("error", .str "Invalid arguments"),
            ("message", .str "参数验证失败")]
    | .ok true =>
      match tool.run args with
      | .ok result => result
      | .error e =>
        .obj [("success", .bool false), ("error", .str e.msg),
              ("message", .str ("工具执行失败: " ++ e.msg))]

end ToolRegistry

/-- Every member of a list is a substring of its `", "`-join. -/
theorem pySubstr_join (t : String) (l : List String) (h : t ∈ l) :
    t.data <:+: (pyJoin ", " l).data := by
  induction l with
  | nil => cases h
  | cons x xs ih =>
    cases xs with
    | nil =>
      rcases List.mem_singleton.mp h with rfl
      exact List.infix_refl _
    | cons y ys =>
      rcases List.mem_cons.mp h with rfl | hmem
      · show t.data <:+: (t ++ ", " ++ pyJoin ", " (y :: ys)).data
        refine ⟨[], (", " ++ pyJoin ", " (y :: ys)).data, ?_⟩
        simp [String.data_append]
      · have hj := ih hmem
        show t.data <:+: (x ++ ", " ++ pyJoin ", " (y :: ys)).data
        refine hj.trans ⟨(x ++ ", ").data, [], ?_⟩
        simp [String.data_append]

/-- C6: `ToolRegistry.execute` on a name absent from the registry never
raises (the embedded function is total and this branch calls no tool
code) and returns a dict with `success = False` whose message mentions
every similarly-named tool, and — when no similarly-named tool exists —
every available tool. -/
theorem C6_execute_unknown_tool (reg : ToolRegistry) (name : String)
    (args : List (String × PyObj)) (h : reg.get name = Option.none) :
    ∃ msg : String,
      (reg.execute name args).lookup "success" = Option.some (.bool false) ∧
      (reg.execute name args).lookup "message" = Option.some (.str msg) ∧
      (∀ t ∈ reg.similar_tools name, pySubstr t msg = true) ∧
      (reg.similar_tools name = [] →
        ∀ t ∈ reg.available_tools, pySubstr t msg = true) := by
  have hex : reg.execute name args = reg.unknown_tool_result name := by
    unfold ToolRegistry.execute
    rw [h]
  by_cases hs : reg.similar_tools name = []
  · by_cases ha : reg.available_tools = []
    · refine ⟨"工具 \x27" ++ name ++ "\x27 不存在" ++ "", ?_, ?_, ?_, ?_⟩
      · rw [hex]
        unfold ToolRegistry.unknown_tool_result
        simp [hs, ha, PyObj.lookup]
      · rw [hex]
        unfold ToolRegistry.unknown_tool_result
        simp [hs, ha, PyObj.lookup]
        rfl
      · rw [hs]
        intro t ht
        cases ht
      · intro _ t ht
        rw [ha] at ht
        cases ht
    · refine ⟨"工具 \x27" ++ name ++ "\x27 不存在" ++
        (" 可用工具: " ++ pyJoin ", " reg.available_tools), ?_, ?_, ?_, ?_⟩
      · rw [hex]
        unfold ToolRegistry.unknown_tool_result
        simp [hs, ha, PyObj.lookup]
      · rw [hex]
        unfold ToolRegistry.unknown_tool_result
        simp [hs, ha, PyObj.lookup]
        rfl
      · rw [hs]
        intro t ht
        cases ht
      · intro _ t ht
        have hj := pySubstr_join t _ ht
        simp only [pySubstr, decide_eq_true_eq]
        refine hj.trans ⟨("工具 \x27" ++ name ++ "\x27 不存在" ++ " 可用工具: ").data, [], ?_⟩
        simp [String.data_append]
  · refine ⟨"工具 \x27" ++ name ++ "\x27 不存在" ++
      (" 您是否想使用: " ++ pyJoin ", " (reg.similar_tools name) ++ "?"), ?_, ?_, ?_, ?_⟩
    · rw [hex]
      unfold ToolRegistry.unknown_tool_result
      simp [hs, PyObj.lookup]
    · rw [hex]
      unfold ToolRegistry.unknown_tool_result
      simp [hs, PyObj.lookup]
      rfl
    · intro t ht
      have hj := pySubstr_join t _ ht
      simp only [pySubstr, decide_eq_true_eq]
      refine hj.trans ⟨("工具 \x27" ++ name ++ "\x27 不存在" ++ " 您是否想使用: ").data,
        "?".data, ?_⟩
      simp [String.data_append]
    · intro hcon
      exact absurd hcon hs

/-- A concrete two-tool registry (navigate/click, as in the repository's
tests) used to witness the unknown-tool branch. -/
def sampleRegistry : ToolRegistry :=
  { _tools :=
      [("navigate",
        { name := "navigate", description := "navigate to a url"
          validate_args := fun _ => .ok true
          run := fun _ => .ok (.obj [("success", .bool true)]) }),
       ("click",
        { name := "click", description := "click an element"
          validate_args := fun _ => .ok true
          run := fun _ => .ok (.obj [("success", .bool true)]) })] }

/-- Witness for C6: the name "page" is not registered in
`sampleRegistry`, and the theorem applies. -/
theorem C6_execute_unknown_tool_witness :
    sampleRegistry.get "page" = Option.none ∧
    (∃ msg : String,
      (sampleRegistry.execute "page" []).lookup "success" =
        Option.some (.bool false) ∧
      (sampleRegistry.execute "page" []).lookup "message" =
        Option.some (.str msg) ∧
      (∀ t ∈ sampleRegistry.similar_tools "page", pySubstr t msg = true) ∧
      (sampleRegistry.similar_tools "page" = [] →
        ∀ t ∈ sampleRegistry.available_tools, pySubstr t msg = true)) :=
  ⟨rfl, C6_execute_unknown_tool sampleRegistry "page" [] rfl⟩

/-! ## `src/core/types.py` — shared data model

Wrapped in namespace `Core`, mirroring `src/core` (the bare name `Action`
is taken by Mathlib).  The Python attribute `variables` is modelled by the
field `vars` (`variables` is a reserved command name in Lean); every other
name follows the source. -/

namespace Core

/-- `ActionType` (types.py line 10). -/
inductive ActionType where
  | gui
  | code
  | mcp
deriving DecidableEq, Repr

/-- `TaskStatus` (types.py line 17). -/
inductive TaskStatus where
  | pending
  | running
  | completed
  | failed
  | cancelled
deriving DecidableEq, Repr

/-- `Action` (types.py line 33). -/
structure Action where
  type : ActionType := .gui
  tool : String := ""
  args : List (String × PyObj) := []
  description : String := ""
  dependencies : List String := []
  timeout : Option ℤ := Option.none

/-- `ActionResult` (types.py line 73); `execution_time` and `timestamp`
are wall-clock observations outside the model. -/
structure ActionResult where
  action_id : String
  success : Bool
  data : Option PyObj := Option.none
  error : Option String := Option.none
  message : String := ""

/-- `StepDecision` (types.py line 186). -/
structure StepDecision where
  action : Option Action := Option.none
  should_continue : Bool := true
  should_retry : Bool := false
  should_skip : Bool := false
  reasoning : String := ""
  confidence : ℚ := 0
  next_step_description : String := ""

/-- `WorkflowStep` (types.py line 160). -/
structure WorkflowStep where
  id : String
  name : String := ""
  description : String := ""
  action : Action := {}
  condition : Option String := Option.none
  on_error : Option String := Option.none
  retry_count : ℤ := 0
  timeout : Option ℤ := Option.none

/-- `WorkflowDefinition` (types.py line 173); `vars` models the
`variables` dict. -/
structure WorkflowDefinition where
  id : String
  name : String := ""
  description : String := ""
  version : String := "1.0"
  steps : List WorkflowStep := []
  vars : List (String × PyObj) := []
  on_complete : Option String := Option.none
  on_error : Option String := Option.none

/-- `Context` (types.py line 150) as read by the executors: the result
accumulator and the string-keyed variable bag `vars` (the `task`,
`current_subtask_id` and `screen_state` fields are not read by any
embedded function). -/
structure Context where
  action_results : List ActionResult := []
  vars : List (String × PyObj) := []

/-- Assignment `d[k] = v` on an insertion-ordered dict. -/
def dictSet (fields : List (String × PyObj)) (k : String) (v : PyObj) :
    List (String × PyObj) :=
  if fields.any (fun f => f.1 == k) then
    fields.map (fun f => if f.1 == k then (k, v) else f)
  else fields ++ [(k, v)]

/-- `base.update(upd)` on insertion-ordered dicts. -/
def dictUpdate (base upd : List (String × PyObj)) : List (String × PyObj) :=
  upd.foldl (fun acc kv => dictSet acc kv.1 kv.2) base

/-- Python `a or b` over two optional strings (`None` and `""` are
falsy). -/
def pyOrStr : Option String → Option String → Option String
  | Option.some s, b => if s = "" then b else Option.some s
  | Option.none, b => b

/-- Truthiness of an optional Python value (absent = `None`). -/
def pyTruthyOpt : Option PyObj → Bool
  | Option.none => false
  | Option.some v => v.truthy

end Core

/-! ## `src/core/workflow_executor.py` — WorkflowExecutor -/

namespace Core

/-- The external behaviour `WorkflowExecutor.execute_workflow` depends
on: `eval` of a condition expression over the restricted namespace
(`Option.none` models the expression raising, in which case
`_evaluate_condition` returns `False`), the worker's
`execute_with_retry` (arbitrary tool code: may raise; the `ℕ` argument
is the position of the step in the workflow, so two occurrences of an
identical step may behave differently), and the `on_complete` handler's
`exec` (returns the context it leaves behind — partial mutations
included — plus the exception it raised, if any). -/
structure WorkflowWorld where
  evalExpr : String → Context → Option Bool
  execute_with_retry : ℕ → Action → ℤ → Context → Except PyErr ActionResult
  runCompletionHandler : String → Context → Context × Option PyErr

/-- `WorkflowExecutor._evaluate_condition` (workflow_executor.py
lines 149-185): `None`/empty conditions hold; an evaluation error makes
the condition `False`. -/
def evaluate_condition (w : WorkflowWorld) (condition : Option String)
    (context : Context) : Bool :=
  match condition with
  | Option.none => true
  | Option.some c =>
    if c = "" then true
    else
      match w.evalExpr c context with
      | Option.some b => b
      | Option.none => false

/-- `WorkflowExecutor._execute_step` (workflow_executor.py
lines 299-323): delegate to the worker with
`max_retries = retry_count if retry_count > 0 else 1`. -/
def execute_step (w : WorkflowWorld) (idx : ℕ) (step : WorkflowStep)
    (context : Context) : Except PyErr ActionResult :=
  w.execute_with_retry idx step.action
    (if step.retry_count > 0 then step.retry_count else 1) context

/-- Mutable state of the step loop of `execute_workflow`: the
`action_results` and `executed_steps` accumulators and the context. -/
structure WorkflowRunState where
  action_results : List ActionResult := []
  executed_steps : List String := []
  context : Context := {}

/-- The state update after a step's worker call returned `result`
(workflow_executor.py lines 244-251): append the result, point the
context at the accumulated results, record a `step_<id>_result` variable
on truthy successful data, and record the executed step id. -/
def step_update (st : WorkflowRunState) (step : WorkflowStep)
    (result : ActionResult) : WorkflowRunState :=
  let results := st.action_results ++ [result]
  let ctx1 := { st.context with action_results := results }
  let ctx2 :=
    if result.success ∧ pyTruthyOpt result.data then
      let newVars :=
        dictSet ctx1.vars ("step_" ++ step.id ++ "_result")
          (result.data.getD .none)
      { ctx1 with vars := newVars }
    else ctx1
  { action_results := results
    executed_steps := st.executed_steps ++ [step.id]
    context := ctx2 }

/-- Outcome of the step loop: fell off the end (or `break`), or an
exception escaped (`on_error == "abort"` re-raise). -/
inductive WorkflowLoopOutcome where
  | finished (st : WorkflowRunState)
  | errored (e : PyErr) (st : WorkflowRunState)

/-- The `for step in workflow.steps` loop of
`WorkflowExecutor.execute_workflow` (workflow_executor.py
lines 233-269). -/
def workflow_steps_loop (w : WorkflowWorld) (wf : WorkflowDefinition) :
    List WorkflowStep → ℕ → WorkflowRunState → WorkflowLoopOutcome
  | [], _, st => .finished st
  | step :: rest, idx, st =>
    if ¬ evaluate_condition w step.condition st.context then
      workflow_steps_loop w wf rest (idx + 1) st
    else
      match execute_step w idx step st.context with
      | .ok result =>
        let st1 := step_update st step result
        if ¬ result.success then
          let error_strategy := pyOrStr step.on_error wf.on_error
          if error_strategy = Option.some "abort" then .finished st1
          else workflow_steps_loop w wf rest (idx + 1) st1
        else workflow_steps_loop w wf rest (idx + 1) st1
      | .error e =>
        let error_strategy := pyOrStr step.on_error wf.on_error
        if error_strategy = Option.some "abort" then .errored e st
        else workflow_steps_loop w wf rest (idx + 1) st

/-- The value `execute_workflow` returns, together with the final
`task.status` it assigned.  `vars`/`error` model the keys that are only
present in some return dicts. -/
structure WorkflowRunResult where
  success : Bool
  action_results : List ActionResult
  executed_steps : List String
  vars : Option (List (String × PyObj)) := Option.none
  error : Option String := Option.none
  status : TaskStatus

/-- The context `execute_workflow` starts from (workflow_executor.py
lines 218-227): the workflow's variables, merged over any caller-supplied
initial context. -/
def initial_workflow_context (workflow : WorkflowDefinition)
    (initial_context : Option Context) : Context :=
  match initial_context with
  | Option.none => { vars := workflow.vars }
  | Option.some c => { c with vars := dictUpdate c.vars workflow.vars }

/-- The context after the `on_complete` hook (workflow_executor.py
lines 282-287): the hook runs when declared and non-empty; its failure is
logged, not propagated, and the context it leaves behind is kept. -/
def final_workflow_context (w : WorkflowWorld)
    (workflow : WorkflowDefinition) (st : WorkflowRunState) : Context :=
  match workflow.on_complete with
  | Option.none => st.context
  | Option.some handler =>
    if handler = "" then st.context
    else (w.runCompletionHandler handler st.context).1

/-- `WorkflowExecutor.execute_workflow` (workflow_executor.py
lines 187-297). -/
def execute_workflow (w : WorkflowWorld) (workflow : WorkflowDefinition)
    (initial_context : Option Context := Option.none) : WorkflowRunResult :=
  match workflow_steps_loop w workflow workflow.steps 0
      { context := initial_workflow_context workflow initial_context } with
  | .errored e st =>
    { success := false
      action_results := st.action_results
      executed_steps := st.executed_steps
      error := Option.some e.msg
      status := .failed }
  | .finished st =>
    let all_success := st.action_results.all (fun r => r.success)
    { success := all_success
      action_results := st.action_results
      executed_steps := st.executed_steps
      vars := Option.some (final_workflow_context w workflow st).vars
      status := if all_success then .completed else .failed }

end Core

namespace Core

/-- C7: in `WorkflowExecutor`, when a step runs (its condition holds) and
its action result has `success = False`, the effective error policy —
the step's `on_error`, or the workflow's when the step has none — decides
the rest of the run: `abort` stops before any subsequent step (the loop
result is independent of the remaining steps), while `skip` and every
other value (including absent) continue with the remaining steps. -/
theorem C7_workflow_error_policy (w : WorkflowWorld) (wf : WorkflowDefinition)
    (step : WorkflowStep) (rest : List WorkflowStep) (idx : ℕ)
    (st : WorkflowRunState) (result : ActionResult)
    (hcond : evaluate_condition w step.condition st.context = true)
    (hexec : execute_step w idx step st.context = .ok result)
    (hfail : result.success = false) :
    (pyOrStr step.on_error wf.on_error = Option.some "abort" →
      workflow_steps_loop w wf (step :: rest) idx st =
        .finished (step_update st step result)) ∧
    (pyOrStr step.on_error wf.on_error ≠ Option.some "abort" →
      workflow_steps_loop w wf (step :: rest) idx st =
        workflow_steps_loop w wf rest (idx + 1) (step_update st step result)) := by
  constructor <;> intro hpol <;>
    simp [workflow_steps_loop, hcond, hexec, hfail, hpol]

/-- A one-step workflow whose single step always fails, used to witness
the error-policy theorem: the step's own policy is `abort`. -/
def abortStepWorkflow : WorkflowDefinition :=
  { id := "wf1"
    steps := [{ id := "s1", on_error := Option.some "abort" }] }

/-- A worker world whose tool call always fails (for witnessing). -/
def failingWorld : WorkflowWorld :=
  { evalExpr := fun _ _ => Option.some true
    execute_with_retry := fun _ _ _ _ =>
      .ok { action_id := "a1", success := false, message := "boom" }
    runCompletionHandler := fun _ c => (c, Option.none) }

/-- Witness for C7 at the concrete failing one-step workflow. -/
theorem C7_workflow_error_policy_witness :
    evaluate_condition failingWorld Option.none {} = true ∧
    execute_step failingWorld 0
        { id := "s1", on_error := Option.some "abort" } {} =
      .ok { action_id := "a1", success := false, message := "boom" } ∧
    (pyOrStr (Option.some "abort") abortStepWorkflow.on_error =
        Option.some "abort" →
      workflow_steps_loop failingWorld abortStepWorkflow
          [{ id := "s1", on_error := Option.some "abort" }] 0 {} =
        .finished (step_update {}
          { id := "s1", on_error := Option.some "abort" }
          { action_id := "a1", success := false, message := "boom" })) :=
  ⟨rfl, rfl,
    (C7_workflow_error_policy failingWorld abortStepWorkflow
      { id := "s1", on_error := Option.some "abort" } [] 0 {}
      { action_id := "a1", success := false, message := "boom" }
      rfl rfl rfl).1⟩

end Core

/-! ## `src/core/agent_executor.py` — AgentExecutor -/

namespace Core

/-- The external behaviour `AgentExecutor.execute_task` depends on, per
iteration number (the value of `step_count` inside the iteration):
`decide` is `_decide_next_step` (oracle call plus parse; it catches every
exception and degrades to a stop decision, so it is total),
`execute_action` is the worker (arbitrary tool code: may raise), and
`reflect` is the final `Reflector.reflect` call (may raise). -/
structure AgentWorld where
  decide : ℕ → StepDecision
  execute_action : ℕ → Action → Except PyErr ActionResult
  reflect : List ActionResult → Except PyErr PyObj

/-- `AgentExecutor._check_task_complete` (agent_executor.py
lines 323-347): complete iff there is at least one result and all
results succeeded. -/
def check_task_complete (action_results : List ActionResult) : Bool :=
  if action_results.isEmpty then false
  else action_results.all (fun r => r.success)

/-- Outcome of the `while step_count < max_steps` loop of
`execute_task`: normal exit (stop decision, completion check, or cap),
or an exception escaping to the outer handler. -/
inductive AgentLoopOutcome where
  | finished (results : List ActionResult) (vars : List (String × PyObj))
      (step_count : ℕ)
  | errored (e : PyErr) (results : List ActionResult) (step_count : ℕ)

/-- The `while step_count < self.max_steps` loop of
`AgentExecutor.execute_task` (agent_executor.py lines 89-156), with
`fuel = max_steps - step_count` as the structural measure.  Per
iteration: increment `step_count`, ask for a decision, stop when
`should_continue` is false, `continue` when `should_skip` (the
`should_retry` branch only logs), execute the action if one is present
(recording a `step_<n>_result` variable on truthy successful data), and
`break` once `_check_task_complete` holds. -/
def agent_loop (w : AgentWorld) :
    ℕ → ℕ → List ActionResult → List (String × PyObj) → AgentLoopOutcome
  | 0, step_count, results, vars => .finished results vars step_count
  | fuel + 1, step_count, results, vars =>
    let step_count := step_count + 1
    let decision := w.decide step_count
    if decision.should_continue = false then
      .finished results vars step_count
    else if decision.should_skip then
      agent_loop w fuel step_count results vars
    else
      match decision.action with
      | Option.some action =>
        match w.execute_action step_count action with
        | .error e => .errored e results step_count
        | .ok result =>
          let results := results ++ [result]
          let vars :=
            if result.success ∧ pyTruthyOpt result.data then
              dictSet vars ("step_" ++ toString step_count ++ "_result")
                (result.data.getD .none)
            else vars
          if check_task_complete results then
            .finished results vars step_count
          else agent_loop w fuel step_count results vars
      | Option.none =>
        if check_task_complete results then
          .finished results vars step_count
        else agent_loop w fuel step_count results vars

/-- The value `execute_task` returns, together with the final
`task.status` it assigned.  `reflection`/`vars`/`error` model keys
present only in some return dicts. -/
structure AgentRunResult where
  success : Bool
  action_results : List ActionResult
  step_count : ℕ
  reflection : Option PyObj := Option.none
  vars : Option (List (String × PyObj)) := Option.none
  error : Option String := Option.none
  status : TaskStatus

/-- `AgentExecutor.execute_task` (agent_executor.py lines 48-185): run
the decision loop from `step_count = 0` with empty results, reflect once
on the full result set, and report `success` iff every result succeeded
(task status `completed`/`failed` accordingly); any escaped exception —
from the worker or from the final reflection — yields the
`success = False` error dict with status `failed`. -/
def execute_task (w : AgentWorld) (max_steps : ℕ := 50)
    (initial_vars : List (String × PyObj) := []) : AgentRunResult :=
  match agent_loop w max_steps 0 [] initial_vars with
  | .errored e results step_count =>
    { success := false
      action_results := results
      step_count := step_count
      error := Option.some e.msg
      status := .failed }
  | .finished results vars step_count =>
    match w.reflect results with
    | .error e =>
      { success := false
        action_results := results
        step_count := step_count
        error := Option.some e.msg
        status := .failed }
    | .ok reflection =>
      let all_success := results.all (fun r => r.success)
      { success := all_success
        action_results := results
        step_count := step_count
        reflection := Option.some reflection
        vars := Option.some vars
        status := if all_success then .completed else .failed }

/-- The step count an outcome of the loop reports. -/
def AgentLoopOutcome.step_count : AgentLoopOutcome → ℕ
  | .finished _ _ n => n
  | .errored _ _ n => n

/-- Each run of the loop performs at most `fuel` further iterations. -/
theorem agent_loop_step_count_le (w : AgentWorld) (fuel : ℕ) :
    ∀ sc results vars,
      (agent_loop w fuel sc results vars).step_count ≤ sc + fuel := by
  induction fuel with
  | zero =>
    intro sc results vars
    simp [agent_loop, AgentLoopOutcome.step_count]
  | succ n ih =>
    intro sc results vars
    unfold agent_loop
    dsimp only
    repeat' split
    all_goals
      first
        | (simp only [AgentLoopOutcome.step_count]; omega)
        | (exact le_trans (ih _ _ _) (by omega))

/-- When every decision says continue and makes no progress (skip, or no
action), the loop consumes all its fuel and accumulates nothing. -/
theorem agent_loop_no_progress (w : AgentWorld)
    (hall : ∀ n, (w.decide n).should_continue = true ∧
      ((w.decide n).should_skip = true ∨ (w.decide n).action = Option.none))
    (fuel : ℕ) :
    ∀ sc vars, agent_loop w fuel sc [] vars = .finished [] vars (sc + fuel) := by
  induction fuel with
  | zero =>
    intro sc vars
    simp [agent_loop]
  | succ n ih =>
    intro sc vars
    obtain ⟨hc, hrest⟩ := hall (sc + 1)
    have hstep : agent_loop w (n + 1) sc [] vars =
        agent_loop w n (sc + 1) [] vars := by
      by_cases hskip : (w.decide (sc + 1)).should_skip = true
      · simp [agent_loop, hc, hskip]
      · rcases hrest with hskip' | hnoact
        · exact absurd hskip' hskip
        · simp [agent_loop, hc, hskip, hnoact, check_task_complete]
    rw [hstep, ih (sc + 1) vars]
    congr 1
    omega

end Core

namespace Core

/-- `execute_task` when an exception escapes the loop. -/
theorem execute_task_errored (w : AgentWorld) (max_steps : ℕ)
    (initial_vars : List (String × PyObj)) (e : PyErr)
    (rs : List ActionResult) (sc : ℕ)
    (h : agent_loop w max_steps 0 [] initial_vars = .errored e rs sc) :
    execute_task w max_steps initial_vars =
      { success := false, action_results := rs, step_count := sc,
        error := Option.some e.msg, status := .failed } := by
  unfold execute_task
  rw [h]

/-- `execute_task` when the loop exits normally but the final reflection
raises. -/
theorem execute_task_reflect_errored (w : AgentWorld) (max_steps : ℕ)
    (initial_vars : List (String × PyObj)) (e : PyErr)
    (rs : List ActionResult) (vs : List (String × PyObj)) (sc : ℕ)
    (h1 : agent_loop w max_steps 0 [] initial_vars = .finished rs vs sc)
    (h2 : w.reflect rs = .error e) :
    execute_task w max_steps initial_vars =
      { success := false, action_results := rs, step_count := sc,
        error := Option.some e.msg, status := .failed } := by
  unfold execute_task
  rw [h1]
  simp only [h2]

/-- `execute_task` on a fully normal run. -/
theorem execute_task_finished (w : AgentWorld) (max_steps : ℕ)
    (initial_vars : List (String × PyObj)) (rj : PyObj)
    (rs : List ActionResult) (vs : List (String × PyObj)) (sc : ℕ)
    (h1 : agent_loop w max_steps 0 [] initial_vars = .finished rs vs sc)
    (h2 : w.reflect rs = .ok rj) :
    execute_task w max_steps initial_vars =
      { success := rs.all (fun r => r.success), action_results := rs,
        step_count := sc, reflection := Option.some rj,
        vars := Option.some vs, error := Option.none,
        status := if rs.all (fun r => r.success) then .completed
          else .failed } := by
  unfold execute_task
  rw [h1]
  simp only [h2]

/-- `execute_workflow` when an exception escapes the step loop. -/
theorem execute_workflow_errored (w : WorkflowWorld)
    (wf : WorkflowDefinition) (ic : Option Context) (e : PyErr)
    (st : WorkflowRunState)
    (h : workflow_steps_loop w wf wf.steps 0
        { context := initial_workflow_context wf ic } = .errored e st) :
    execute_workflow w wf ic =
      { success := false, action_results := st.action_results,
        executed_steps := st.executed_steps,
        error := Option.some e.msg, status := .failed } := by
  unfold execute_workflow
  rw [h]

/-- `execute_workflow` on a normal run. -/
theorem execute_workflow_finished (w : WorkflowWorld)
    (wf : WorkflowDefinition) (ic : Option Context)
    (st : WorkflowRunState)
    (h : workflow_steps_loop w wf wf.steps 0
        { context := initial_workflow_context wf ic } = .finished st) :
    execute_workflow w wf ic =
      { success := st.action_results.all (fun r => r.success)
        action_results := st.action_results
        executed_steps := st.executed_steps
        vars := Option.some (final_workflow_context w wf st).vars
        error := Option.none
        status := if st.action_results.all (fun r => r.success)
          then .completed else .failed } := by
  unfold execute_workflow
  rw [h]

end Core

namespace Core

/-- C2: for every sequence of oracle decisions and every worker/reflector
behaviour, `AgentExecutor.execute_task` performs at most `max_steps` loop
iterations (the reported `step_count` counts them); and when every
decision has `should_continue = true` with no progress (`should_skip`, or
no action) it performs exactly `max_steps` iterations and terminates at
the cap. -/
theorem C2_execute_task_bounded (w : AgentWorld) (max_steps : ℕ)
    (initial_vars : List (String × PyObj)) :
    (execute_task w max_steps initial_vars).step_count ≤ max_steps ∧
    ((∀ n, (w.decide n).should_continue = true ∧
        ((w.decide n).should_skip = true ∨
          (w.decide n).action = Option.none)) →
      (execute_task w max_steps initial_vars).step_count = max_steps) := by
  constructor
  · have h := agent_loop_step_count_le w max_steps 0 [] initial_vars
    cases hout : agent_loop w max_steps 0 [] initial_vars with
    | errored e rs sc =>
      rw [execute_task_errored w max_steps initial_vars e rs sc hout]
      rw [hout] at h
      simpa [AgentLoopOutcome.step_count] using h
    | finished rs vs sc =>
      rw [hout] at h
      simp only [AgentLoopOutcome.step_count, Nat.zero_add] at h
      cases hr : w.reflect rs with
      | error e =>
        rw [execute_task_reflect_errored w max_steps initial_vars e rs vs sc
          hout hr]
        exact h
      | ok rj =>
        rw [execute_task_finished w max_steps initial_vars rj rs vs sc
          hout hr]
        exact h
  · intro hall
    have h := agent_loop_no_progress w hall max_steps 0 initial_vars
    rw [Nat.zero_add] at h
    cases hr : w.reflect [] with
    | error e =>
      rw [execute_task_reflect_errored w max_steps initial_vars e []
        initial_vars max_steps h hr]
    | ok rj =>
      rw [execute_task_finished w max_steps initial_vars rj []
        initial_vars max_steps h hr]

/-- An oracle that always answers "continue but skip this step", with
collaborators that never raise: the no-progress scenario of C2. -/
def skipForeverWorld : AgentWorld :=
  { decide := fun _ => { should_skip := true }
    execute_action := fun _ _ => .ok { action_id := "a", success := true }
    reflect := fun _ => .ok .none }

/-- Witness for C2: with the always-skip oracle and `max_steps = 3` the
run stops after exactly 3 iterations. -/
theorem C2_execute_task_bounded_witness :
    (execute_task skipForeverWorld 3 []).step_count ≤ 3 ∧
    (execute_task skipForeverWorld 3 []).step_count = 3 :=
  ⟨(C2_execute_task_bounded skipForeverWorld 3 []).1,
   (C2_execute_task_bounded skipForeverWorld 3 []).2
     (fun _ => ⟨rfl, Or.inl rfl⟩)⟩

/-- C10: a run that reaches its normal epilogue (the returned dict has no
`error` key, i.e. no exception escaped the loop or the final hooks) with
zero ActionResults reports `success = True` and task status `completed`,
in both `AgentExecutor.execute_task` and
`WorkflowExecutor.execute_workflow`: the all-results-succeeded check is
vacuously true on an empty result list. -/
theorem C10_empty_results_success (w : AgentWorld) (max_steps : ℕ)
    (initial_vars : List (String × PyObj)) (ww : WorkflowWorld)
    (wf : WorkflowDefinition) (ic : Option Context) :
    ((execute_task w max_steps initial_vars).error = Option.none →
      (execute_task w max_steps initial_vars).action_results = [] →
      (execute_task w max_steps initial_vars).success = true ∧
      (execute_task w max_steps initial_vars).status = .completed) ∧
    ((execute_workflow ww wf ic).error = Option.none →
      (execute_workflow ww wf ic).action_results = [] →
      (execute_workflow ww wf ic).success = true ∧
      (execute_workflow ww wf ic).status = .completed) := by
  constructor
  · intro herr hres
    cases hout : agent_loop w max_steps 0 [] initial_vars with
    | errored e rs sc =>
      rw [execute_task_errored w max_steps initial_vars e rs sc hout]
        at herr
      simp at herr
    | finished rs vs sc =>
      cases hr : w.reflect rs with
      | error e =>
        rw [execute_task_reflect_errored w max_steps initial_vars e rs vs sc
          hout hr] at herr
        simp at herr
      | ok rj =>
        rw [execute_task_finished w max_steps initial_vars rj rs vs sc
          hout hr] at hres ⊢
        simp only at hres
        simp [hres]
  · intro herr hres
    cases hout : workflow_steps_loop ww wf wf.steps 0
        { context := initial_workflow_context wf ic } with
    | errored e st =>
      rw [execute_workflow_errored ww wf ic e st hout] at herr
      simp at herr
    | finished st =>
      rw [execute_workflow_finished ww wf ic st hout] at hres ⊢
      simp only at hres
      simp [hres]

/-- An oracle whose first decision already says stop. -/
def stopWorld : AgentWorld :=
  { decide := fun _ => { should_continue := false }
    execute_action := fun _ _ => .ok { action_id := "a", success := true }
    reflect := fun _ => .ok .none }

/-- A one-step workflow whose single step carries a condition. -/
def condFalseWorkflow : WorkflowDefinition :=
  { id := "wf2"
    steps := [{ id := "s1", condition := Option.some "1 > 2" }] }

/-- A world whose condition evaluator rejects every expression and whose
other collaborators never raise. -/
def condFalseWorld : WorkflowWorld :=
  { evalExpr := fun _ _ => Option.some false
    execute_with_retry := fun _ _ _ _ =>
      .ok { action_id := "a1", success := true }
    runCompletionHandler := fun _ c => (c, Option.none) }

/-- Witness for C10: an agent run whose first decision stops (zero
results) and a workflow run whose only step is skipped by its condition
(zero results) both succeed with status `completed`. -/
theorem C10_empty_results_success_witness :
    (execute_task stopWorld 50 []).error = Option.none ∧
    (execute_task stopWorld 50 []).action_results = [] ∧
    ((execute_task stopWorld 50 []).success = true ∧
      (execute_task stopWorld 50 []).status = .completed) ∧
    (execute_workflow condFalseWorld condFalseWorkflow
        Option.none).error = Option.none ∧
    (execute_workflow condFalseWorld condFalseWorkflow
        Option.none).action_results = [] ∧
    ((execute_workflow condFalseWorld condFalseWorkflow
        Option.none).success = true ∧
      (execute_workflow condFalseWorld condFalseWorkflow
        Option.none).status = .completed) :=
  ⟨rfl, rfl,
   (C10_empty_results_success stopWorld 50 [] condFalseWorld
      condFalseWorkflow Option.none).1 rfl rfl,
   rfl, rfl,
   (C10_empty_results_success stopWorld 50 [] condFalseWorld
      condFalseWorkflow Option.none).2 rfl rfl⟩

end Core

/-! ## `src/mcp/client.py` — MCPClient (the spec's ProtocolClient) -/

/-- A discovered tool dict (`{name, description, inputSchema}`,
client.py lines 233-237). -/
structure ToolDict where
  name : String
  description : String
  inputSchema : PyObj

/-- `StdioServerParameters` as produced by `_parse_server_command`. -/
structure StdioServerParameters where
  command : String
  args : List String
deriving DecidableEq, Repr

/-- The observable state of an `MCPClient` (client.py lines 45-67).
`session` / `read_stream` / `write_stream` hold identifiers of the live
SDK resources; `processes` lists the child processes spawned so far and
still owned by the `AsyncExitStack` (closing the stack releases them). -/
structure MCPState where
  server_command : Option String := Option.none
  transport : String := "stdio"
  stdio_params : Option StdioServerParameters := Option.none
  session : Option ℕ := Option.none
  read_stream : Option ℕ := Option.none
  write_stream : Option ℕ := Option.none
  connected : Bool := false
  tools : List ToolDict := []
  processes : List ℕ := []

/-- Side effects `connect` performs on the outside world, in order:
spawning a child process, running the `initialize` handshake on a
session, and running tool discovery on a session. -/
inductive ConnEvent where
  | spawned (pid : ℕ)
  | handshake (session : ℕ)
  | discovery (session : ℕ)
deriving DecidableEq, Repr

/-- The external behaviour `connect` depends on: command parsing
(`shlex.split` plus the empty-command check may raise), the
`stdio_client` context entry (spawns the process: yields a process id
and the two stream ids, or raises), `ClientSession` creation, the
`initialize` handshake (field `init_session`: `initialize` is a reserved
keyword in Lean), and the wire `list_tools` response. -/
structure MCPWorld where
  parse_server_command : String → Except PyErr StdioServerParameters
  spawn : StdioServerParameters → Except PyErr (ℕ × ℕ × ℕ)
  new_session : ℕ → ℕ → Except PyErr ℕ
  init_session : ℕ → Except PyErr Unit
  list_tools_wire : ℕ → Except PyErr (List ToolDict)

namespace MCPClient

/-- `MCPClient._cleanup` (client.py lines 158-210): a no-op when not
connected; otherwise closes the exit stack (releasing session, streams
and child processes) and resets the connection state.  `_tools` and
`_stdio_params` are not reset. -/
def cleanup (st : MCPState) : MCPState :=
  if st.connected = false then st
  else
    { st with
      connected := false
      session := Option.none
      read_stream := Option.none
      write_stream := Option.none
      processes := [] }

/-- `MCPClient.connect` (client.py lines 98-156): guard on a missing
command and on a non-stdio transport, then parse the command, enter the
stdio transport (spawning the child), create and initialize the session,
mark connected, discover tools (errors there are swallowed by
`list_tools`), and return `True`; any failure before that runs
`_cleanup` and returns `False`.  The returned list records the
world-visible events in order. -/
def connect (w : MCPWorld) (st : MCPState) :
    MCPState × Bool × List ConnEvent :=
  match st.server_command with
  | Option.none => (st, false, [])
  | Option.some cmd =>
    if cmd = "" then (st, false, [])
    else if st.transport ≠ "stdio" then (st, false, [])
    else
      match w.parse_server_command cmd with
      | .error _ => (cleanup st, false, [])
      | .ok params =>
        let st0 := { st with stdio_params := Option.some params }
        match w.spawn params with
        | .error _ => (cleanup st0, false, [])
        | .ok (pid, rs, ws) =>
          let st1 := { st0 with
            read_stream := Option.some rs
            write_stream := Option.some ws
            processes := st0.processes ++ [pid] }
          match w.new_session rs ws with
          | .error _ => (cleanup st1, false, [.spawned pid])
          | .ok sid =>
            let st2 := { st1 with session := Option.some sid }
            match w.init_session sid with
            | .error _ => (cleanup st2, false, [.spawned pid, .handshake sid])
            | .ok _ =>
              let st3 := { st2 with connected := true }
              let st4 :=
                match w.list_tools_wire sid with
                | .ok ts => { st3 with tools := ts }
                | .error _ => st3
              (st4, true, [.spawned pid, .handshake sid, .discovery sid])

end MCPClient

/-- A client state that is already connected (session 1 over process 1). -/
def connectedState : MCPState :=
  { server_command := Option.some "python -m mock_server"
    transport := "stdio"
    session := Option.some 1
    read_stream := Option.some 10
    write_stream := Option.some 11
    connected := true
    processes := [1] }

/-- A world in which every connection step succeeds, handing out fresh
identifiers (process 2, session 7). -/
def freshWorld : MCPWorld :=
  { parse_server_command := fun _ =>
      .ok { command := "python", args := ["-m", "mock_server"] }
    spawn := fun _ => .ok (2, 12, 13)
    new_session := fun _ _ => .ok 7
    init_session := fun _ => .ok ()
    list_tools_wire := fun _ => .ok [] }

/-- C4 counterexample: calling `connect` on an already-connected client
is not a no-op — there is no connected-guard in `connect`
(client.py lines 98-156), so the call spawns a second child process
(process list grows to [1, 2]), re-runs the handshake, and replaces the
session (1 becomes 7). -/
theorem C4_counterexample :
    connectedState.connected = true ∧
    (MCPClient.connect freshWorld connectedState).2.2 =
      [.spawned 2, .handshake 7, .discovery 7] ∧
    connectedState.session = Option.some 1 ∧
    (MCPClient.connect freshWorld connectedState).1.session =
      Option.some 7 ∧
    connectedState.processes = [1] ∧
    (MCPClient.connect freshWorld connectedState).1.processes = [1, 2] :=
  ⟨rfl, rfl, rfl, rfl, rfl, rfl⟩

/-- C4 amended: `connect` has no already-connected guard.  Calling it a
second time while connected (with a nonempty command, stdio transport,
and a world in which parsing, spawning, session creation and handshake
succeed) re-runs the whole connection sequence: it spawns a new child
process, re-runs the handshake, and replaces the session identifier. -/
theorem C4_connect_not_idempotent (w : MCPWorld) (st : MCPState)
    (cmd : String) (params : StdioServerParameters)
    (pid rs ws sid : ℕ)
    (_hconn : st.connected = true)
    (hcmd : st.server_command = Option.some cmd) (hne : cmd ≠ "")
    (htr : st.transport = "stdio")
    (hp : w.parse_server_command cmd = .ok params)
    (hs : w.spawn params = .ok (pid, rs, ws))
    (hsess : w.new_session rs ws = .ok sid)
    (hinit : w.init_session sid = .ok ()) :
    (MCPClient.connect w st).2.2 =
      [.spawned pid, .handshake sid, .discovery sid] ∧
    (MCPClient.connect w st).1.session = Option.some sid ∧
    (MCPClient.connect w st).1.processes = st.processes ++ [pid] ∧
    (MCPClient.connect w st).2.1 = true := by
  unfold MCPClient.connect
  rw [hcmd]
  simp only [hne, htr, hp, hs, hsess, hinit, if_neg, if_pos]
  cases hlt : w.list_tools_wire sid <;> simp [hlt]

/-- Witness for the amended C4 theorem at the concrete connected state
and all-succeeding world. -/
theorem C4_connect_not_idempotent_witness :
    (MCPClient.connect freshWorld connectedState).2.2 =
      [.spawned 2, .handshake 7, .discovery 7] ∧
    (MCPClient.connect freshWorld connectedState).1.session =
      Option.some 7 ∧
    (MCPClient.connect freshWorld connectedState).1.processes =
      connectedState.processes ++ [2] ∧
    (MCPClient.connect freshWorld connectedState).2.1 = true :=
  C4_connect_not_idempotent freshWorld connectedState
    "python -m mock_server" { command := "python", args := ["-m", "mock_server"] }
    2 12 13 7 rfl rfl (by decide) rfl rfl rfl rfl rfl

/-- Wire content items of a `CallToolResult` (`mcp.types`): text
content, image content, or any other SDK content class (with its
`.type` attribute and `model_dump()`).  In the SDK the only content
class whose `type` is `"text"` is `TextContent`. -/
inductive ContentItem where
  | text (t : String)
  | image (dat mime : String)
  | other (type : String) (dump : List (String × PyObj))

/-- A wire `CallToolResult`. -/
structure CallToolResult where
  content : List ContentItem := []
  structuredContent : Option PyObj := Option.none
  isError : Bool := false

/-- The result dict `call_tool` builds (client.py lines 277-334); each
`Option` field models a key that is only conditionally present. -/
structure ToolCallDict where
  content : Option (List PyObj) := Option.none
  text : Option PyObj := Option.none
  structuredContent : Option PyObj := Option.none
  isError : Option Bool := Option.none
  error : Option String := Option.none

/-- Conversion of one content item to its dict (client.py
lines 285-308); for an unknown item the dict starts at
`{"type": ...}` and is updated with the item's `model_dump()`. -/
def content_item_to_dict : ContentItem → PyObj
  | .text t => .obj [("type", .str "text"), ("text", .str t)]
  | .image dat mime =>
    .obj [("type", .str "image"), ("data", .str dat),
          ("mimeType", .str mime)]
  | .other ty dump => .obj (Core.dictUpdate [("type", .str ty)] dump)

/-- The first `TextContent` in a content list (client.py
lines 327-331). -/
def first_text : List ContentItem → Option String
  | [] => Option.none
  | .text t :: _ => Option.some t
  | _ :: rest => first_text rest

/-- The content-processing block of `call_tool` (client.py
lines 281-315): convert each content item to a dict and, when the first
converted dict's `"type"` is `"text"`, read its `"text"` key into the
`text` field (a missing `"text"` key there raises `KeyError`, re-raised
by `call_tool`'s `except` clause). -/
def build_content_dict (content : List ContentItem) :
    Except PyErr ToolCallDict :=
  if content.isEmpty then .ok {}
  else
    let content_list := content.map content_item_to_dict
    let d : ToolCallDict := { content := Option.some content_list }
    match content_list with
    | [] => .ok d
    | h0 :: _ =>
      if h0.lookup "type" == Option.some (PyObj.str "text") then
        match h0.lookup "text" with
        | Option.some v => .ok { d with text := Option.some v }
        | Option.none => .error (.other "KeyError: text")
      else .ok d

namespace MCPClient

/-- `MCPClient.call_tool` (client.py lines 252-339): raise
`RuntimeError` when there is no session or the client is not connected;
otherwise send the invocation (`wire` is the behaviour of
`self._session.call_tool` for this call — a transport failure there
propagates, re-raised by the `except` clause) and convert the
`CallToolResult` into a dict: converted content items, the first text
payload, truthy structured content, and — on `isError` — the
`isError = True` flag with the first text content as the error text. -/
def call_tool (st : MCPState) (wire : Except PyErr CallToolResult) :
    Except PyErr ToolCallDict :=
  if st.session = Option.none ∨ st.connected = false then
    .error (.runtimeError "MCP client not connected")
  else
    match wire with
    | .error e => .error e
    | .ok result =>
      match build_content_dict result.content with
      | .error e => .error e
      | .ok d1 =>
        let d2 :=
          if Core.pyTruthyOpt result.structuredContent then
            { d1 with structuredContent := result.structuredContent }
          else d1
        let d3 :=
          if result.isError then
            let d := { d2 with isError := Option.some true }
            match first_text result.content with
            | Option.some t => { d with error := Option.some t }
            | Option.none => d
          else d2
        .ok d3

end MCPClient

/-- Content lists as the MCP SDK can actually produce them: the only
content class whose `type` is `"text"` is `TextContent`, so an `other`
item never carries that type — neither in its `.type` attribute nor in
the `"type"` key of its converted dict (its dict would otherwise be read
for a `"text"` key the way a `TextContent` dict is). -/
def wellFormedContent (l : List ContentItem) : Bool :=
  l.all fun i =>
    match i with
    | .other ty dump =>
      decide (ty ≠ "text") &&
        ((Core.dictUpdate [("type", PyObj.str ty)] dump).lookup "type"
          != Option.some (PyObj.str "text"))
    | _ => true

/-- On SDK-shaped content, the content-processing block never raises. -/
theorem build_content_dict_ok (c : List ContentItem)
    (hwf : wellFormedContent c = true) :
    ∃ d, build_content_dict c = .ok d := by
  cases c with
  | nil => exact ⟨{}, rfl⟩
  | cons i rest =>
    cases i with
    | text t =>
      exact ⟨{ content := Option.some ((ContentItem.text t :: rest).map content_item_to_dict), text := Option.some (.str t) }, rfl⟩
    | image dat mime =>
      exact ⟨{ content := Option.some ((ContentItem.image dat mime :: rest).map content_item_to_dict) }, rfl⟩
    | other ty dump =>
      have hhead : ((Core.dictUpdate [("type", PyObj.str ty)] dump).lookup
            "type" != Option.some (PyObj.str "text")) = true := by
        have := hwf
        simp only [wellFormedContent, List.all_cons, Bool.and_eq_true] at this
        exact this.1.2
      have hfalse : ((Core.dictUpdate [("type", PyObj.str ty)] dump).lookup
            "type" == Option.some (PyObj.str "text")) = false := by
        simpa [bne] using hhead
      refine ⟨{ content := Option.some ((ContentItem.other ty dump :: rest).map content_item_to_dict) }, ?_⟩
      simp [build_content_dict, content_item_to_dict, PyObj.lookup, hfalse]

/-- C8: `call_tool` rejects with `RuntimeError` whenever there is no
session or the client is not connected; when connected, a transport
failure during the call propagates as the same exception, while a
wire-level error response (`isError`) comes back as an `.ok` dict with
`isError = True` and the first text content extracted as the error
text — not as a raised exception. -/
theorem C8_call_tool_error_semantics (st : MCPState)
    (wire : Except PyErr CallToolResult) (e : PyErr)
    (result : CallToolResult) :
    ((st.session = Option.none ∨ st.connected = false) →
      MCPClient.call_tool st wire =
        .error (.runtimeError "MCP client not connected")) ∧
    (¬(st.session = Option.none ∨ st.connected = false) →
      wire = .error e →
      MCPClient.call_tool st wire = .error e) ∧
    (¬(st.session = Option.none ∨ st.connected = false) →
      wire = .ok result → result.isError = true →
      wellFormedContent result.content = true →
      ∃ d, MCPClient.call_tool st wire = .ok d ∧
        d.isError = Option.some true ∧
        (∀ t, first_text result.content = Option.some t →
          d.error = Option.some t)) := by
  refine ⟨?_, ?_, ?_⟩
  · intro h
    unfold MCPClient.call_tool
    rw [if_pos h]
  · intro h hw
    unfold MCPClient.call_tool
    rw [if_neg h, hw]
  · intro h hw hie hwf
    obtain ⟨d1, hd1⟩ := build_content_dict_ok result.content hwf
    unfold MCPClient.call_tool
    rw [if_neg h, hw]
    dsimp only
    rw [hd1]
    dsimp only
    rw [if_pos hie]
    cases hft : first_text result.content with
    | none =>
      refine ⟨_, rfl, rfl, ?_⟩
      intro t ht
      cases ht
    | some t =>
      refine ⟨_, rfl, rfl, ?_⟩
      intro t' ht'
      cases ht'
      rfl

/-- A wire response in which the tool reported an application-level
error with a text explanation. -/
def errorWireResult : CallToolResult :=
  { content := [.text "tool refused"], isError := true }

/-- Witness for C8: a fresh (disconnected) client rejects; a connected
client propagates a transport error and maps an `isError` response into
an `isError = True` dict with the error text extracted. -/
theorem C8_call_tool_error_semantics_witness :
    (MCPClient.call_tool {} (.ok errorWireResult) =
      .error (.runtimeError "MCP client not connected")) ∧
    (MCPClient.call_tool connectedState (.error (.other "transport broke")) =
      .error (.other "transport broke")) ∧
    (∃ d, MCPClient.call_tool connectedState (.ok errorWireResult) = .ok d ∧
      d.isError = Option.some true ∧
      (∀ t, first_text errorWireResult.content = Option.some t →
        d.error = Option.some t)) :=
  ⟨(C8_call_tool_error_semantics {} (.ok errorWireResult)
      (.other "transport broke") errorWireResult).1 (Or.inl rfl),
   (C8_call_tool_error_semantics connectedState
      (.error (.other "transport broke"))
      (.other "transport broke") errorWireResult).2.1
      (by simp [connectedState]) rfl,
   (C8_call_tool_error_semantics connectedState (.ok errorWireResult)
      (.other "transport broke") errorWireResult).2.2
      (by simp [connectedState]) rfl rfl rfl⟩

/-! ## `src/llm/self_consistency.py` — SelfConsistencyGenerator

The embedding covers the default configuration of the repository:
`parse_fn = None`, `validate_fn = None` and the default `MAJORITY` voting
strategy.  The sampling/parsing stage round-trips through the oracle and
`json.loads`; the pipeline below is therefore a function of the list of
`_parse_sample` outcomes, quantified over in the theorems.  Python sets
and `tool`-keyed dicts are modelled as first-insertion-ordered lists
deduplicated under structural equality (Python additionally requires the
keys hashable; plan tool names are strings — see `wellFormedPlan`). -/

/-- `SampleResult` (self_consistency.py line 24). -/
structure SampleResult where
  content : String
  parsed_data : Option PyObj := Option.none
  is_valid : Bool := false
  quality_score : ℚ := 0
  parse_error : Option String := Option.none

/-- `ConsistencyResult` (self_consistency.py line 34). -/
structure ConsistencyResult where
  best_result : PyObj
  consistency_score : ℚ
  sample_count : ℕ
  valid_sample_count : ℕ
  voting_details : PyObj

/-- `d[k]` subscript: key lookup on a dict, `TypeError` on anything
else (`KeyError` on a missing key). -/
def PyObj.getItem (d : PyObj) (k : String) : Except PyErr PyObj :=
  match d with
  | .obj fields =>
    match fields.lookup k with
    | Option.some v => .ok v
    | Option.none => .error (.other ("KeyError: " ++ k))
  | _ => .error (.typeError "object is not subscriptable")

/-- `s.add(x)` on a Python set modelled as a dedup-ordered list. -/
def pySetAdd (s : List PyObj) (x : PyObj) : List PyObj :=
  if s.any (fun y => PyObj.beq y x) then s else s ++ [x]

/-- `d[k] = d.get(k, 0) + 1` on a dict with `PyObj` keys. -/
def dictIncr (d : List (PyObj × ℕ)) (k : PyObj) : List (PyObj × ℕ) :=
  if d.any (fun f => PyObj.beq f.1 k) then
    d.map (fun f => if PyObj.beq f.1 k then (f.1, f.2 + 1) else f)
  else d ++ [(k, 1)]

/-- `d[k] = d.get(k, 0) + 1` on a dict with `int` keys
(`subtask_counts`). -/
def natDictIncr (d : List (ℕ × ℕ)) (k : ℕ) : List (ℕ × ℕ) :=
  if d.any (fun f => f.1 == k) then
    d.map (fun f => if f.1 == k then (f.1, f.2 + 1) else f)
  else d ++ [(k, 1)]

/-- `max(items, key=lambda x: x[1])`: the first pair with maximal second
component, as CPython's `max` returns the first maximal element. -/
def maxBySecond : List (ℕ × ℕ) → Option (ℕ × ℕ)
  | [] => Option.none
  | x :: xs =>
    Option.some (xs.foldl (fun best y => if y.2 > best.2 then y else best) x)

/-- `PyObj.isDict` — `isinstance(x, dict)`. -/
def PyObj.isDict : PyObj → Bool
  | .obj _ => true
  | _ => false

/-- The action step of the tool-collection loop (self_consistency.py
lines 524-526 / 530-532): add a dict action's `"tool"` to the set. -/
def collect_tools_action (acc : List PyObj) (action : PyObj) : List PyObj :=
  match action with
  | .obj af =>
    match af.lookup "tool" with
    | Option.some tool => pySetAdd acc tool
    | Option.none => acc
  | _ => acc

/-- The subtask step of the tool-collection loop (self_consistency.py
lines 522-526): for a dict subtask with `"actions"`, walk its actions. -/
def collect_tools_step (acc : List PyObj) (subtask : PyObj) :
    Except PyErr (List PyObj) := do
  match subtask with
  | .obj sf =>
    if sf.any (fun f => f.1 == "actions") then do
      match sf.lookup "actions" with
      | Option.some actions => do
        let acts ← actions.items
        return acts.foldl collect_tools_action acc
      | Option.none => return acc
    else return acc
  | _ => return acc

/-- The tool-collection loop shared by `_calculate_similarity`
(self_consistency.py lines 520-532). -/
def collect_tools (subtasks : PyObj) : Except PyErr (List PyObj) := do
  let subs ← subtasks.items
  subs.foldlM collect_tools_step []

/-- `SelfConsistencyGenerator._calculate_similarity`
(self_consistency.py lines 499-541): 0 for falsy inputs; otherwise 0.3
for an equal subtask count plus 0.7 times the Jaccard overlap of the two
tool sets — the latter contributed only when both tool sets are
nonempty — normalised by the total weight 1.0. -/
def calculate_similarity (data1 data2 : PyObj) : Except PyErr ℚ := do
  if ¬ data1.truthy ∨ ¬ data2.truthy then return 0
  else do
    let subtasks1 ← data1.get "subtasks" (.arr [])
    let subtasks2 ← data2.get "subtasks" (.arr [])
    let len1 ← subtasks1.pyLen
    let len2 ← subtasks2.pyLen
    let score1 : ℚ := if len1 = len2 then 3/10 else 0
    let tools1 ← collect_tools subtasks1
    let tools2 ← collect_tools subtasks2
    let score2 : ℚ :=
      if !tools1.isEmpty && !tools2.isEmpty then
        let inter :=
          (tools1.filter (fun x => tools2.any (fun y => PyObj.beq x y))).length
        let union := tools1.length +
          (tools2.filter (fun y => ¬ tools1.any (fun x => PyObj.beq x y))).length
        if union > 0 then (7/10) * ((inter : ℚ) / (union : ℚ)) else 0
      else 0
    let total : ℚ := 3/10 + 7/10
    return (if total > 0 then (score1 + score2) / total else 0)

/-- The subtask step of `_calculate_quality_score`'s loop
(self_consistency.py lines 290-294): 20% off for a non-dict subtask and
20% off for a missing `"actions"` key (the membership test raises on
non-container subtasks, exactly as `"actions" not in subtask` does). -/
def quality_step (score : ℚ) (subtask : PyObj) : Except PyErr ℚ := do
  let score := if subtask.isDict then score else score * (4/5)
  let hasActs ← PyObj.containsKey "actions" subtask
  return (if hasActs then score else score * (4/5))

/-- `SelfConsistencyGenerator._calculate_quality_score`
(self_consistency.py lines 266-296): 0 for invalid samples; otherwise
start at 1.0, halve on an empty `subtasks`, and apply `quality_step` to
every subtask. -/
def calculate_quality_score (sample : SampleResult) : Except PyErr ℚ := do
  if sample.is_valid = false then return 0
  else
    match sample.parsed_data with
    | Option.none => return 1
    | Option.some pd =>
      if ¬ pd.truthy then return 1
      else do
        let hasSub ← PyObj.containsKey "subtasks" pd
        if hasSub then do
          let subs ← pd.getItem "subtasks"
          if ¬ subs.truthy then return (1 * (1/2))
          else do
            let sitems ← subs.items
            sitems.foldlM quality_step (1 : ℚ)
        else return 1

/-- The action step of the vote-counting loop (self_consistency.py
lines 339-342): bump the tool's vote. -/
def tally_action (tv : List (PyObj × ℕ)) (action : PyObj) :
    List (PyObj × ℕ) :=
  match action with
  | .obj af =>
    if af.any (fun f => f.1 == "tool") then
      match af.lookup "tool" with
      | Option.some tool => dictIncr tv tool
      | Option.none => tv
    else tv
  | _ => tv

/-- The subtask step of the vote-counting loop (self_consistency.py
lines 337-342). -/
def tally_sub (tv : List (PyObj × ℕ)) (subtask : PyObj) :
    Except PyErr (List (PyObj × ℕ)) := do
  match subtask with
  | .obj sf =>
    if sf.any (fun f => f.1 == "actions") then do
      match sf.lookup "actions" with
      | Option.some actions => do
        let acts ← actions.items
        return acts.foldl tally_action tv
      | Option.none => return tv
    else return tv
  | _ => return tv

/-- One iteration of the vote-counting loop of `_majority_vote`
(self_consistency.py lines 331-346): skip falsy parses; otherwise count
every dict action's tool under every dict subtask with `"actions"`, and
bump the sample's subtask count (`len(parsed_data.get("subtasks", []))`). -/
def tally_sample (acc : List (PyObj × ℕ) × List (ℕ × ℕ))
    (sample : SampleResult) :
    Except PyErr (List (PyObj × ℕ) × List (ℕ × ℕ)) := do
  match sample.parsed_data with
  | Option.none => return acc
  | Option.some pd =>
    if ¬ pd.truthy then return acc
    else do
      let (tool_votes, subtask_counts) := acc
      let hasSub ← PyObj.containsKey "subtasks" pd
      let tool_votes ←
        if hasSub then do
          let subs ← pd.getItem "subtasks"
          let sitems ← subs.items
          sitems.foldlM tally_sub tool_votes
        else pure tool_votes
      let subsv ← pd.get "subtasks" (.arr [])
      let n ← subsv.pyLen
      return (tool_votes, natDictIncr subtask_counts n)

/-- The action step of the candidate-scoring loop (self_consistency.py
lines 367-371): add the tool's vote count when the tool was counted. -/
def score_action (tool_votes : List (PyObj × ℕ)) (score : ℕ)
    (action : PyObj) : ℕ :=
  match action with
  | .obj af =>
    if af.any (fun f => f.1 == "tool") then
      match af.lookup "tool" with
      | Option.some tool =>
        match tool_votes.find? (fun f => PyObj.beq f.1 tool) with
        | Option.some f => score + f.2
        | Option.none => score
      | Option.none => score
    else score
  | _ => score

/-- The subtask step of the candidate-scoring loop (self_consistency.py
lines 365-371). -/
def score_sub (tool_votes : List (PyObj × ℕ)) (score : ℕ)
    (subtask : PyObj) : Except PyErr ℕ := do
  match subtask with
  | .obj sf =>
    if sf.any (fun f => f.1 == "actions") then do
      match sf.lookup "actions" with
      | Option.some actions => do
        let acts ← actions.items
        return acts.foldl (score_action tool_votes) score
      | Option.none => return score
    else return score
  | _ => return score

/-- The score the selection loop of `_majority_vote` gives one candidate
(self_consistency.py lines 359-371): 2 when the subtask count matches
the most common one, plus the vote count of every counted tool the
candidate uses. -/
def sample_score (tool_votes : List (PyObj × ℕ)) (most_common : ℕ)
    (pd : PyObj) : Except PyErr ℕ := do
  let subs ← pd.getItem "subtasks"
  let n ← subs.pyLen
  let score := if n = most_common then 2 else 0
  let sitems ← subs.items
  sitems.foldlM (score_sub tool_votes) score

/-- One iteration of the selection loop of `_majority_vote`
(self_consistency.py lines 355-375): skip candidates without a truthy
parse or without `"subtasks"`; keep the first candidate whose score
strictly exceeds the best so far (initially 0). -/
def select_step (tool_votes : List (PyObj × ℕ)) (most_common : ℕ)
    (acc : Option SampleResult × ℕ) (sample : SampleResult) :
    Except PyErr (Option SampleResult × ℕ) := do
  match sample.parsed_data with
  | Option.none => return acc
  | Option.some pd =>
    if ¬ pd.truthy then return acc
    else do
      let hasSub ← PyObj.containsKey "subtasks" pd
      if ¬ hasSub then return acc
      else do
        let score ← sample_score tool_votes most_common pd
        if score > acc.2 then return (Option.some sample, score)
        else return acc

/-- The fallback of `_majority_vote` (self_consistency.py lines 385-390):
the first truthy-parsed sample, else the empty plan. -/
def majority_fallback (parsed_samples : List SampleResult) :
    PyObj × PyObj :=
  match parsed_samples.find? (fun s => Core.pyTruthyOpt s.parsed_data) with
  | Option.some s =>
    (s.parsed_data.getD .none,
      .obj [("strategy", .str "majority"), ("fallback", .bool true)])
  | Option.none =>
    (.obj [], .obj [("strategy", .str "majority"),
      ("error", .str "No valid samples")])

/-- `SelfConsistencyGenerator._majority_vote` (self_consistency.py
lines 322-390).  The voting-details dict is represented with the
`tool_votes`/`subtask_counts` tables encoded as pair lists. -/
def majority_vote (parsed_samples : List SampleResult) :
    Except PyErr (PyObj × PyObj) := do
  let (tool_votes, subtask_counts) ←
    parsed_samples.foldlM tally_sample ([], [])
  let most_common : ℕ :=
    match maxBySecond subtask_counts with
    | Option.some p => p.1
    | Option.none => 0
  let (best_sample, best_score) ←
    parsed_samples.foldlM (select_step tool_votes most_common)
      (Option.none, 0)
  match best_sample with
  | Option.some sample =>
    match sample.parsed_data with
    | Option.some pd =>
      if pd.truthy then
        return (pd, .obj
          [("strategy", .str "majority"),
           ("tool_votes", .arr (tool_votes.map
             (fun f => .arr [f.1, .num (f.2 : ℚ)]))),
           ("subtask_counts", .arr (subtask_counts.map
             (fun f => .arr [.num (f.1 : ℚ), .num (f.2 : ℚ)]))),
           ("best_score", .num (best_score : ℚ))])
      else return (majority_fallback parsed_samples)
    | Option.none => return (majority_fallback parsed_samples)
  | Option.none => return (majority_fallback parsed_samples)

/-- `SelfConsistencyGenerator._calculate_consistency_score`
(self_consistency.py lines 543-563): the mean similarity between each
truthy-parsed sample and the chosen best result. -/
def calculate_consistency_score (parsed_samples : List SampleResult)
    (best_result : PyObj) : Except PyErr ℚ := do
  if parsed_samples.isEmpty ∨ ¬ best_result.truthy then return 0
  else do
    let sims ← parsed_samples.foldlM (fun acc s =>
      match s.parsed_data with
      | Option.some pd =>
        if pd.truthy then do
          let sim ← calculate_similarity pd best_result
          return acc ++ [sim]
        else pure acc
      | Option.none => pure acc) ([] : List ℚ)
    if sims.isEmpty then return 0
    else return (sims.sum / (sims.length : ℚ))

/-- The post-sampling pipeline of
`SelfConsistencyGenerator.generate_with_voting` (self_consistency.py
lines 96-141) in the repository's default configuration
(`parse_fn = None`, `validate_fn = None`, MAJORITY voting), as a function
of the `_parse_sample` outcome of each sample: keep the valid parses
(returning the empty-plan result when none parsed), compute quality
scores, vote, and score consistency against the winner. -/
def generate_with_voting (samples : List SampleResult) :
    Except PyErr ConsistencyResult := do
  let parsed_samples := samples.filter (fun s => s.is_valid)
  if parsed_samples.isEmpty then
    return { best_result := .obj []
             consistency_score := 0
             sample_count := samples.length
             valid_sample_count := 0
             voting_details := .obj
               [("error", .str "All samples failed to parse")] }
  else do
    let parsed_samples ← parsed_samples.mapM (fun s => do
      let q ← calculate_quality_score s
      return { s with quality_score := q })
    let (best_result, voting_details) ← majority_vote parsed_samples
    let consistency_score ←
      calculate_consistency_score parsed_samples best_result
    return { best_result := best_result
             consistency_score := consistency_score
             sample_count := samples.length
             valid_sample_count := parsed_samples.length
             voting_details := voting_details }

/-- Plans as the planner's schema produces them (and as Python requires
for the voting code not to raise): a dict with a `"subtasks"` list of
dicts, each dict's `"actions"` value (when present) a list, and every
action's `"tool"` value (when present) a string — tool names are strings
in the schema, which also keeps them hashable for Python's set/dict
use. -/
def wellFormedAction : PyObj → Bool
  | .obj af =>
    match af.lookup "tool" with
    | Option.some (.str _) => true
    | Option.some _ => false
    | Option.none => true
  | _ => true

/-- A well-formed subtask entry: a dict whose `"actions"` value, when
present, is a list of well-formed actions. -/
def wellFormedSubtask : PyObj → Bool
  | .obj sf =>
    match sf.lookup "actions" with
    | Option.some (.arr acts) => acts.all wellFormedAction
    | Option.some _ => false
    | Option.none => true
  | _ => false

/-- A well-formed plan: a dict whose `"subtasks"` value is a list of
well-formed subtasks. -/
def wellFormedPlan : PyObj → Bool
  | .obj fields =>
    match fields.lookup "subtasks" with
    | Option.some (.arr subs) => subs.all wellFormedSubtask
    | _ => false
  | _ => false

/-- Monad-law helper: binding a pure `Except` value. -/
theorem except_bind_ok {ε α β : Type} (x : α) (f : α → Except ε β) :
    (Except.ok (ε := ε) x >>= f) = f x := rfl

/-- Folding the action step over well-formed actions keeps the tool set
a set of strings. -/
theorem collect_tools_action_str :
    ∀ (acts : List PyObj), acts.all wellFormedAction = true →
      ∀ acc, (∀ x ∈ acc, ∃ s, x = PyObj.str s) →
        ∀ x ∈ acts.foldl collect_tools_action acc, ∃ s, x = PyObj.str s := by
  intro acts
  induction acts with
  | nil =>
    intro _ acc hacc x hx
    exact hacc x (by simpa using hx)
  | cons a arest ih =>
    intro hall acc hacc
    simp only [List.all_cons, Bool.and_eq_true] at hall
    simp only [List.foldl_cons]
    refine ih hall.2 (collect_tools_action acc a) ?_
    intro y hy
    cases a with
    | obj af =>
      simp only [collect_tools_action] at hy
      rcases hlt : af.lookup "tool" with _ | tool
      · rw [hlt] at hy
        exact hacc y hy
      · rw [hlt] at hy
        have ha := hall.1
        simp only [wellFormedAction, hlt] at ha
        cases tool with
        | str s =>
          simp only [pySetAdd] at hy
          split at hy
          · exact hacc y hy
          · rcases List.mem_append.mp hy with h | h
            · exact hacc y h
            · exact ⟨s, by simpa using h⟩
        | none => simp at ha
        | bool b => simp at ha
        | num q => simp at ha
        | arr l => simp at ha
        | obj o => simp at ha
    | none => exact hacc y (by simpa [collect_tools_action] using hy)
    | bool b => exact hacc y (by simpa [collect_tools_action] using hy)
    | num q => exact hacc y (by simpa [collect_tools_action] using hy)
    | str s => exact hacc y (by simpa [collect_tools_action] using hy)
    | arr l => exact hacc y (by simpa [collect_tools_action] using hy)

/-- A well-formed dict subtask that passes the `"actions"` membership
test has a well-formed action list under that key. -/
theorem wf_subtask_actions (sf : List (String × PyObj))
    (hwf : wellFormedSubtask (.obj sf) = true)
    (hact : sf.any (fun f => f.1 == "actions") = true) :
    ∃ acts, sf.lookup "actions" = Option.some (.arr acts) ∧
      acts.all wellFormedAction = true := by
  simp only [wellFormedSubtask] at hwf
  rcases hlk : sf.lookup "actions" with _ | v
  · rw [List.lookup_eq_none_iff] at hlk
    rw [List.any_eq_true] at hact
    obtain ⟨f, hf, hfeq⟩ := hact
    have h1 : f.1 = "actions" := by simpa using hfeq
    have h2 := hlk f hf
    rw [h1] at h2
    simp at h2
  · rw [hlk] at hwf
    cases v with
    | arr acts => exact ⟨acts, rfl, hwf⟩
    | none => simp at hwf
    | bool b => simp at hwf
    | num q => simp at hwf
    | str s => simp at hwf
    | obj o => simp at hwf

/-- The subtask step of tool collection never raises on a well-formed
subtask and keeps the set all-strings. -/
theorem collect_tools_step_ok (subtask : PyObj)
    (hwf : wellFormedSubtask subtask = true) (acc : List PyObj)
    (hacc : ∀ x ∈ acc, ∃ s, x = PyObj.str s) :
    ∃ ts, collect_tools_step acc subtask = .ok ts ∧
      ∀ x ∈ ts, ∃ s, x = PyObj.str s := by
  cases subtask with
  | obj sf =>
    by_cases hact : sf.any (fun f => f.1 == "actions") = true
    · obtain ⟨acts, hlk, hacts⟩ := wf_subtask_actions sf hwf hact
      refine ⟨acts.foldl collect_tools_action acc, ?_,
        collect_tools_action_str acts hacts acc hacc⟩
      simp [collect_tools_step, hact, hlk, PyObj.items, except_bind_ok]
    · refine ⟨acc, ?_, hacc⟩
      simp only [collect_tools_step, hact, if_false]
      rfl
  | none => simp [wellFormedSubtask] at hwf
  | bool b => simp [wellFormedSubtask] at hwf
  | num q => simp [wellFormedSubtask] at hwf
  | str s => simp [wellFormedSubtask] at hwf
  | arr l => simp [wellFormedSubtask] at hwf

/-- The tool-collection fold never raises over well-formed subtasks. -/
theorem collect_tools_fold_ok :
    ∀ (subs : List PyObj), subs.all wellFormedSubtask = true →
      ∀ acc, (∀ x ∈ acc, ∃ s, x = PyObj.str s) →
        ∃ ts, subs.foldlM collect_tools_step acc = .ok ts ∧
          ∀ x ∈ ts, ∃ s, x = PyObj.str s := by
  intro subs
  induction subs with
  | nil =>
    intro _ acc hacc
    exact ⟨acc, rfl, hacc⟩
  | cons st rest ih =>
    intro hall acc hacc
    simp only [List.all_cons, Bool.and_eq_true] at hall
    obtain ⟨ts1, hts1, hstr1⟩ := collect_tools_step_ok st hall.1 acc hacc
    obtain ⟨ts, hts, hstr⟩ := ih hall.2 ts1 hstr1
    refine ⟨ts, ?_, hstr⟩
    simp only [List.foldlM_cons, hts1, except_bind_ok, hts]

/-- `collect_tools` never raises on a well-formed subtasks list and
returns a set of strings. -/
theorem collect_tools_ok (subs : List PyObj)
    (hwf : subs.all wellFormedSubtask = true) :
    ∃ ts, collect_tools (.arr subs) = .ok ts ∧
      ∀ x ∈ ts, ∃ s, x = PyObj.str s := by
  obtain ⟨ts, h, hs⟩ := collect_tools_fold_ok subs hwf [] (by simp)
  exact ⟨ts, by simpa [collect_tools, PyObj.items, except_bind_ok] using h, hs⟩

/-- A successful lookup means the key passes the dict's `any`-key test. -/
theorem any_key_of_lookup {β : Type} (l : List (String × β)) (k : String)
    (v : β) (h : l.lookup k = Option.some v) :
    l.any (fun f => f.1 == k) = true := by
  induction l with
  | nil => simp [List.lookup] at h
  | cons p rest ih =>
    cases p with
    | mk k' v' =>
      simp only [List.lookup] at h
      by_cases hk : (k == k') = true
      · simp only [List.any_cons]
        have hk2 : (k' == k) = true := by
          rw [beq_iff_eq] at hk ⊢
          exact hk.symm
        simp [hk2]
      · simp only [Bool.not_eq_true] at hk
        rw [hk] at h
        simp only [List.any_cons, ih h, Bool.or_true]

/-- A dict with a successful lookup is nonempty, hence truthy. -/
theorem truthy_of_lookup (fields : List (String × PyObj)) (k : String)
    (v : PyObj) (h : fields.lookup k = Option.some v) :
    (PyObj.obj fields).truthy = true := by
  cases fields with
  | nil => simp [List.lookup] at h
  | cons p rest => rfl

/-- Self-similarity of a well-formed plan: 1 when the plan uses at least
one tool, 0.3 otherwise — the 0.7 tool-overlap term of
`_calculate_similarity` is contributed only when both tool sets are
nonempty. -/
theorem calculate_similarity_self (fields : List (String × PyObj))
    (subs : List PyObj)
    (hlk : fields.lookup "subtasks" = Option.some (.arr subs))
    (hwf : subs.all wellFormedSubtask = true) :
    ∃ ts, collect_tools (.arr subs) = .ok ts ∧
      calculate_similarity (.obj fields) (.obj fields) =
        .ok (if ts.isEmpty then 3/10 else 1) := by
  obtain ⟨ts, hts, hstr⟩ := collect_tools_ok subs hwf
  refine ⟨ts, hts, ?_⟩
  have htr := truthy_of_lookup fields "subtasks" (.arr subs) hlk
  unfold calculate_similarity
  rw [if_neg (by simp [htr])]
  simp only [PyObj.get, hlk, except_bind_ok, PyObj.pyLen, hts, if_pos rfl]
  cases hempty : ts.isEmpty with
  | true =>
    rw [List.isEmpty_iff] at hempty
    subst hempty
    norm_num
    rfl
  | false =>
    have hne : ts ≠ [] := by
      intro h
      rw [h] at hempty
      simp at hempty
    have hfilter : ts.filter (fun x => ts.any (fun y => PyObj.beq x y)) = ts := by
      rw [List.filter_eq_self]
      intro x hx
      rw [List.any_eq_true]
      obtain ⟨s, rfl⟩ := hstr x hx
      exact ⟨.str s, hx, by simp [PyObj.beq]⟩
    have hextra : ts.filter (fun y => ¬ ts.any (fun x => PyObj.beq x y)) = [] := by
      rw [List.filter_eq_nil_iff]
      intro y hy
      obtain ⟨s, rfl⟩ := hstr y hy
      simp only [decide_not, Bool.not_eq_true', decide_eq_false_iff_not,
        Classical.not_not]  
      rw [List.any_eq_true]
      exact ⟨.str s, hy, by simp [PyObj.beq]⟩
    have hpos : 0 < ts.length := List.length_pos.mpr hne
    have hq : ((ts.length : ℚ)) ≠ 0 := by
      exact_mod_cast hpos.ne'
    rw [hfilter, hextra]
    simp only [List.length_nil, Nat.add_zero, hempty]
    rw [if_pos hpos, div_self hq]
    norm_num
    rfl

/-- On an all-dict subtasks list the quality fold never raises. -/
theorem quality_fold_ok :
    ∀ (subs : List PyObj), subs.all wellFormedSubtask = true →
      ∀ q : ℚ, ∃ r, subs.foldlM quality_step q = .ok r := by
  intro subs
  induction subs with
  | nil =>
    intro _ q
    exact ⟨q, rfl⟩
  | cons st rest ih =>
    intro hall q
    simp only [List.all_cons, Bool.and_eq_true] at hall
    cases st with
    | obj sf =>
      have hstep : quality_step q (.obj sf) =
          .ok (if (sf.any (fun f => f.1 == "actions")) then q
            else q * (4/5)) := by
        simp [quality_step, PyObj.isDict, PyObj.containsKey, except_bind_ok]
      obtain ⟨r, hr⟩ := ih hall.2 (if (sf.any (fun f => f.1 == "actions"))
        then q else q * (4/5))
      exact ⟨r, by simp only [List.foldlM_cons, hstep, except_bind_ok, hr]⟩
    | none => simp [wellFormedSubtask] at hall
    | bool b => simp [wellFormedSubtask] at hall
    | num x => simp [wellFormedSubtask] at hall
    | str x => simp [wellFormedSubtask] at hall
    | arr l => simp [wellFormedSubtask] at hall

/-- `_calculate_quality_score` never raises on a valid, well-formed
sample. -/
theorem quality_ok (s : SampleResult) (fields : List (String × PyObj))
    (subs : List PyObj) (hv : s.is_valid = true)
    (hpd : s.parsed_data = Option.some (.obj fields))
    (hlk : fields.lookup "subtasks" = Option.some (.arr subs))
    (hwf : subs.all wellFormedSubtask = true) :
    ∃ q, calculate_quality_score s = .ok q := by
  have htr := truthy_of_lookup fields "subtasks" (.arr subs) hlk
  have hany := any_key_of_lookup fields "subtasks" (.arr subs) hlk
  unfold calculate_quality_score
  rw [hv, hpd]
  simp only [Bool.true_eq_false, if_false, htr, not_true, if_neg,
    PyObj.containsKey, except_bind_ok, hany, if_pos, PyObj.getItem, hlk]
  cases subs with
  | nil =>
    refine ⟨1 * (1/2), ?_⟩
    rw [if_pos (by decide)]
    rfl
  | cons st rest =>
    have hne : (PyObj.arr (st :: rest)).truthy = true := rfl
    rw [if_neg (by simp [hne])]
    simp only [PyObj.items, except_bind_ok]
    exact quality_fold_ok (st :: rest) hwf 1

/-- The per-subtask vote-counting step never raises on a well-formed
subtask. -/
theorem tally_sub_ok (st : PyObj) (hwf : wellFormedSubtask st = true)
    (tv : List (PyObj × ℕ)) : ∃ tv2, tally_sub tv st = .ok tv2 := by
  cases st with
  | obj sf =>
    by_cases hact : sf.any (fun f => f.1 == "actions") = true
    · obtain ⟨acts, hlk, _⟩ := wf_subtask_actions sf hwf hact
      exact ⟨acts.foldl tally_action tv,
        by simp [tally_sub, hact, hlk, PyObj.items, except_bind_ok]⟩
    · exact ⟨tv, by simp only [tally_sub, hact, if_false]; rfl⟩
  | none => simp [wellFormedSubtask] at hwf
  | bool b => simp [wellFormedSubtask] at hwf
  | num x => simp [wellFormedSubtask] at hwf
  | str x => simp [wellFormedSubtask] at hwf
  | arr l => simp [wellFormedSubtask] at hwf

/-- The vote-counting fold never raises over well-formed subtasks. -/
theorem tally_fold_ok :
    ∀ (subs : List PyObj), subs.all wellFormedSubtask = true →
      ∀ tv, ∃ tv2, subs.foldlM tally_sub tv = .ok tv2 := by
  intro subs
  induction subs with
  | nil =>
    intro _ tv
    exact ⟨tv, rfl⟩
  | cons st rest ih =>
    intro hall tv
    simp only [List.all_cons, Bool.and_eq_true] at hall
    obtain ⟨tv1, h1⟩ := tally_sub_ok st hall.1 tv
    obtain ⟨tv2, h2⟩ := ih hall.2 tv1
    exact ⟨tv2, by simp only [List.foldlM_cons, h1, except_bind_ok, h2]⟩

/-- One vote-counting iteration on a valid, well-formed sample: it never
raises and bumps exactly the sample's subtask count. -/
theorem tally_sample_ok (s : SampleResult) (fields : List (String × PyObj))
    (subs : List PyObj)
    (hpd : s.parsed_data = Option.some (.obj fields))
    (hlk : fields.lookup "subtasks" = Option.some (.arr subs))
    (hwf : subs.all wellFormedSubtask = true)
    (acc : List (PyObj × ℕ) × List (ℕ × ℕ)) :
    ∃ tv, tally_sample acc s = .ok (tv, natDictIncr acc.2 subs.length) := by
  have htr := truthy_of_lookup fields "subtasks" (.arr subs) hlk
  have hany := any_key_of_lookup fields "subtasks" (.arr subs) hlk
  obtain ⟨tv2, h2⟩ := tally_fold_ok subs hwf acc.1
  refine ⟨tv2, ?_⟩
  unfold tally_sample
  rw [hpd]
  simp [htr, PyObj.containsKey, hany, except_bind_ok, PyObj.getItem, hlk,
    PyObj.items, h2, PyObj.get, PyObj.pyLen]

/-- Scoring a candidate only ever adds votes. -/
theorem score_action_le (tv : List (PyObj × ℕ)) :
    ∀ (acts : List PyObj) (sc : ℕ),
      sc ≤ acts.foldl (score_action tv) sc := by
  intro acts
  induction acts with
  | nil => intro sc; simp
  | cons a arest ih =>
    intro sc
    refine le_trans ?_ (by simpa using ih (score_action tv sc a))
    unfold score_action
    cases a with
    | obj af =>
      simp only
      split
      · cases hlt : af.lookup "tool" with
        | none => simp [hlt]
        | some tool =>
          simp only [hlt]
          cases hf : tv.find? (fun f => PyObj.beq f.1 tool) with
          | none => simp [hf]
          | some f =>
            simp only [hf]
            exact Nat.le_add_right sc f.2
      · exact le_refl sc
    | none => exact le_refl sc
    | bool b => exact le_refl sc
    | num x => exact le_refl sc
    | str x => exact le_refl sc
    | arr l => exact le_refl sc

/-- The per-subtask scoring step never raises on a well-formed subtask
and never lowers the score. -/
theorem score_sub_ok (tv : List (PyObj × ℕ)) (st : PyObj)
    (hwf : wellFormedSubtask st = true) (sc : ℕ) :
    ∃ sc2, score_sub tv sc st = .ok sc2 ∧ sc ≤ sc2 := by
  cases st with
  | obj sf =>
    by_cases hact : sf.any (fun f => f.1 == "actions") = true
    · obtain ⟨acts, hlk, _⟩ := wf_subtask_actions sf hwf hact
      refine ⟨acts.foldl (score_action tv) sc, ?_, score_action_le tv acts sc⟩
      simp [score_sub, hact, hlk, PyObj.items, except_bind_ok]
    · refine ⟨sc, ?_, le_refl sc⟩
      simp only [score_sub, hact, if_false]
      rfl
  | none => simp [wellFormedSubtask] at hwf
  | bool b => simp [wellFormedSubtask] at hwf
  | num x => simp [wellFormedSubtask] at hwf
  | str x => simp [wellFormedSubtask] at hwf
  | arr l => simp [wellFormedSubtask] at hwf

/-- The scoring fold never raises and never lowers the score. -/
theorem score_fold_ok (tv : List (PyObj × ℕ)) :
    ∀ (subs : List PyObj), subs.all wellFormedSubtask = true →
      ∀ sc : ℕ, ∃ sc2, subs.foldlM (score_sub tv) sc = .ok sc2 ∧ sc ≤ sc2 := by
  intro subs
  induction subs with
  | nil =>
    intro _ sc
    exact ⟨sc, rfl, le_refl sc⟩
  | cons st rest ih =>
    intro hall sc
    simp only [List.all_cons, Bool.and_eq_true] at hall
    obtain ⟨sc1, h1, hle1⟩ := score_sub_ok tv st hall.1 sc
    obtain ⟨sc2, h2, hle2⟩ := ih hall.2 sc1
    exact ⟨sc2, by simp only [List.foldlM_cons, h1, except_bind_ok, h2],
      le_trans hle1 hle2⟩

/-- `sample_score` on a well-formed plan: never raises, and scores at
least 2 when the subtask count matches the most common one. -/
theorem sample_score_ok (tv : List (PyObj × ℕ)) (mc : ℕ)
    (fields : List (String × PyObj)) (subs : List PyObj)
    (hlk : fields.lookup "subtasks" = Option.some (.arr subs))
    (hwf : subs.all wellFormedSubtask = true) :
    ∃ k, sample_score tv mc (.obj fields) = .ok k ∧
      (subs.length = mc → 2 ≤ k) := by
  obtain ⟨k, hk, hle⟩ :=
    score_fold_ok tv subs hwf (if subs.length = mc then 2 else 0)
  refine ⟨k, ?_, ?_⟩
  · unfold sample_score
    simp [PyObj.getItem, hlk, except_bind_ok, PyObj.pyLen, PyObj.items, hk]
  · intro hmc
    rw [if_pos hmc] at hle
    exact hle

/-- Monad-law helper: binding a `pure` `Except` value. -/
theorem except_pure_bind {ε α β : Type} (x : α) (f : α → Except ε β) :
    ((pure x : Except ε α) >>= f) = f x := rfl

/-- Folding a step that fixes the accumulator over `replicate` leaves
it unchanged. -/
theorem foldlM_replicate_fix {α β : Type} (f : α → β → Except PyErr α)
    (x : β) (acc : α) (h : f acc x = .ok acc) :
    ∀ m, (List.replicate m x).foldlM f acc = .ok acc := by
  intro m
  induction m with
  | zero => rfl
  | succ k ih =>
    simp only [List.replicate_succ, List.foldlM_cons, h, except_bind_ok, ih]

/-- The first selection iteration on a valid, well-formed candidate with
score `k > 0` installs it as the best sample. -/
theorem select_step_first (tv : List (PyObj × ℕ)) (mc : ℕ)
    (s : SampleResult) (fields : List (String × PyObj))
    (hpd : s.parsed_data = Option.some (.obj fields))
    (hany : fields.any (fun f => f.1 == "subtasks") = true)
    (htr : (PyObj.obj fields).truthy = true) (k : ℕ)
    (hk : sample_score tv mc (.obj fields) = .ok k) (hpos : 0 < k) :
    select_step tv mc (Option.none, 0) s = .ok (Option.some s, k) := by
  unfold select_step
  rw [hpd]
  simp only [htr, PyObj.containsKey, hany, except_bind_ok, hk, hpos,
    not_true, if_neg, if_true, if_false, Bool.not_eq_true]
  rfl

/-- Later selection iterations on the same candidate keep the first
one (the comparison is strict). -/
theorem select_step_keep (tv : List (PyObj × ℕ)) (mc : ℕ)
    (s best : SampleResult) (fields : List (String × PyObj))
    (hpd : s.parsed_data = Option.some (.obj fields))
    (hany : fields.any (fun f => f.1 == "subtasks") = true)
    (htr : (PyObj.obj fields).truthy = true) (k : ℕ)
    (hk : sample_score tv mc (.obj fields) = .ok k) :
    select_step tv mc (Option.some best, k) s = .ok (Option.some best, k) := by
  unfold select_step
  rw [hpd]
  simp [htr, PyObj.containsKey, hany, except_bind_ok, hk]

/-- Iterating the `subtask_counts` bump `m` times on key `n`. -/
theorem natDictIncr_iter (n : ℕ) :
    ∀ (m j : ℕ), (fun sc => natDictIncr sc n)^[m] [(n, j)] = [(n, j + m)] := by
  intro m
  induction m with
  | zero => intro j; simp
  | succ k ih =>
    intro j
    rw [Function.iterate_succ_apply]
    have hstep : natDictIncr [(n, j)] n = [(n, j + 1)] := by
      simp [natDictIncr]
    rw [hstep, ih (j + 1)]
    have harith : j + 1 + k = j + (k + 1) := by omega
    rw [harith]

/-- Tallying `m` copies of a valid, well-formed sample: the subtask
counts end as the single bucket `(len, start + m)`. -/
theorem tally_replicate (s : SampleResult) (fields : List (String × PyObj))
    (subs : List PyObj)
    (hpd : s.parsed_data = Option.some (.obj fields))
    (hlk : fields.lookup "subtasks" = Option.some (.arr subs))
    (hwf : subs.all wellFormedSubtask = true) :
    ∀ (m : ℕ) (acc : List (PyObj × ℕ) × List (ℕ × ℕ)),
      ∃ tv, (List.replicate m s).foldlM tally_sample acc =
        .ok (tv, (fun sc => natDictIncr sc subs.length)^[m] acc.2) := by
  intro m
  induction m with
  | zero =>
    intro acc
    exact ⟨acc.1, rfl⟩
  | succ k ih =>
    intro acc
    obtain ⟨tv1, h1⟩ := tally_sample_ok s fields subs hpd hlk hwf acc
    obtain ⟨tv, h⟩ := ih (tv1, natDictIncr acc.2 subs.length)
    refine ⟨tv, ?_⟩
    rw [List.replicate_succ, List.foldlM_cons, h1, except_bind_ok, h,
      Function.iterate_succ_apply]

/-- Appending one similarity per sample: the consistency fold over `m`
identical samples collects `m` copies of the self-similarity. -/
theorem consistency_fold_replicate (pd best : PyObj) (s : SampleResult)
    (hpd : s.parsed_data = Option.some pd) (htr : pd.truthy = true)
    (sim : ℚ) (hsim : calculate_similarity pd best = .ok sim) :
    ∀ (m : ℕ) (acc : List ℚ),
      (List.replicate m s).foldlM (fun acc s =>
        match s.parsed_data with
        | Option.some pd =>
          if pd.truthy then do
            let sim ← calculate_similarity pd best
            return acc ++ [sim]
          else pure acc
        | Option.none => pure acc) acc =
      .ok (acc ++ List.replicate m sim) := by
  intro m
  induction m with
  | zero =>
    intro acc
    simp only [List.replicate, List.foldlM_nil, List.append_nil]
    rfl
  | succ k ih =>
    intro acc
    rw [List.replicate_succ, List.foldlM_cons]
    simp only [hpd, htr, if_true, hsim, except_bind_ok, except_pure_bind]
    rw [ih (acc ++ [sim])]
    simp [List.replicate_succ_ne_nil, List.replicate_succ]

/-- Mapping over `replicate` with a deterministic effectful function. -/
theorem mapM_replicate {α β : Type} (f : α → Except PyErr β) (x : α)
    (y : β) (h : f x = .ok y) :
    ∀ m, (List.replicate m x).mapM f = .ok (List.replicate m y) := by
  intro m
  induction m with
  | zero => rfl
  | succ k ih =>
    rw [List.replicate_succ, List.replicate_succ]
    rw [List.mapM_cons, h]
    simp only [except_bind_ok, ih, except_pure_bind]
    rfl

/-- Majority voting over five copies of one valid, well-formed sample
selects that sample's plan. -/
theorem majority_vote_identical (s₁ : SampleResult)
    (fields : List (String × PyObj)) (subs : List PyObj)
    (hpd : s₁.parsed_data = Option.some (.obj fields))
    (hlk : fields.lookup "subtasks" = Option.some (.arr subs))
    (hwf : subs.all wellFormedSubtask = true) :
    ∃ details, majority_vote (List.replicate 5 s₁) =
      .ok (.obj fields, details) := by
  have hany := any_key_of_lookup fields "subtasks" (.arr subs) hlk
  have htr := truthy_of_lookup fields "subtasks" (.arr subs) hlk
  obtain ⟨tv, htv⟩ := tally_replicate s₁ fields subs hpd hlk hwf 5 ([], [])
  have hiter : (fun sc => natDictIncr sc subs.length)^[5]
      ([] : List (ℕ × ℕ)) = [(subs.length, 5)] := by
    rw [Function.iterate_succ_apply]
    have h0 : natDictIncr [] subs.length = [(subs.length, 1)] := by
      simp [natDictIncr]
    rw [h0, natDictIncr_iter subs.length 4 1]
  rw [hiter] at htv
  obtain ⟨k, hks, hk2⟩ := sample_score_ok tv subs.length fields subs hlk hwf
  have hkpos : 0 < k := lt_of_lt_of_le (by norm_num) (hk2 rfl)
  have hsel1 := select_step_first tv subs.length s₁ fields hpd hany htr
    k hks hkpos
  have hselk := select_step_keep tv subs.length s₁ s₁ fields hpd hany htr
    k hks
  have hmost : (match maxBySecond [(subs.length, 5)] with
      | Option.some p => p.1
      | Option.none => 0) = subs.length := rfl
  have hfold : (List.replicate 5 s₁).foldlM
      (select_step tv subs.length) (Option.none, 0) =
      .ok (Option.some s₁, k) := by
    rw [List.replicate_succ, List.foldlM_cons, hsel1, except_bind_ok]
    exact foldlM_replicate_fix _ s₁ _ hselk 4
  refine ⟨PyObj.obj
    [("strategy", .str "majority"),
     ("tool_votes", .arr (tv.map (fun f => .arr [f.1, .num (f.2 : ℚ)]))),
     ("subtask_counts", .arr (([((subs.length : ℕ), (5 : ℕ))] :
        List (ℕ × ℕ)).map (fun f => .arr [.num (f.1 : ℚ), .num (f.2 : ℚ)]))),
     ("best_score", .num (k : ℚ))], ?_⟩
  unfold majority_vote
  rw [htv, except_bind_ok]
  dsimp only
  rw [hmost, hfold, except_bind_ok]
  dsimp only
  rw [hpd]
  dsimp only
  rw [if_pos htr]
  rfl

/-- The consistency score over five copies of one sample is the sample's
similarity to the chosen best result. -/
theorem consistency_identical (s₁ : SampleResult) (pd best : PyObj)
    (hpd : s₁.parsed_data = Option.some pd) (htr : pd.truthy = true)
    (hbest : best.truthy = true) (sim : ℚ)
    (hsim : calculate_similarity pd best = .ok sim) :
    calculate_consistency_score (List.replicate 5 s₁) best = .ok sim := by
  unfold calculate_consistency_score
  rw [if_neg (by simp [hbest])]
  rw [consistency_fold_replicate pd best s₁ hpd htr sim hsim 5 [],
    except_bind_ok]
  rw [if_neg (by simp)]
  have hsum : (List.replicate 5 sim).sum = 5 * sim := by
    rw [List.sum_replicate, nsmul_eq_mul]
    norm_num
  have hlen : (((List.replicate 5 sim).length : ℕ) : ℚ) = 5 := by
    rw [List.length_replicate]
    norm_num
  rw [List.nil_append, hsum, hlen]
  rw [mul_div_cancel_left₀ sim (by norm_num : (5 : ℚ) ≠ 0)]
  rfl

/-- Five identical valid samples through the whole voting pipeline: the
sample's plan wins and the consistency score is its self-similarity —
1 when it uses at least one tool, 0.3 otherwise. -/
theorem generate_with_voting_identical (s : SampleResult)
    (fields : List (String × PyObj)) (subs : List PyObj)
    (hv : s.is_valid = true)
    (hpd : s.parsed_data = Option.some (.obj fields))
    (hlk : fields.lookup "subtasks" = Option.some (.arr subs))
    (hwf : subs.all wellFormedSubtask = true) :
    ∃ ts details, collect_tools (.arr subs) = .ok ts ∧
      generate_with_voting (List.replicate 5 s) =
        .ok { best_result := .obj fields
              consistency_score := if ts.isEmpty then 3/10 else 1
              sample_count := 5
              valid_sample_count := 5
              voting_details := details } := by
  have htr := truthy_of_lookup fields "subtasks" (.arr subs) hlk
  obtain ⟨ts, hts, hsim⟩ := calculate_similarity_self fields subs hlk hwf
  obtain ⟨q, hq⟩ := quality_ok s fields subs hv hpd hlk hwf
  have hmapone : (do
      let q ← calculate_quality_score s
      return { s with quality_score := q } : Except PyErr SampleResult) =
      .ok { s with quality_score := q } := by
    rw [hq, except_bind_ok]
    rfl
  have hmap := mapM_replicate (fun t => do
      let q ← calculate_quality_score t
      return { t with quality_score := q }) s
    { s with quality_score := q } hmapone 5
  have hpd1 : ({ s with quality_score := q } : SampleResult).parsed_data =
      Option.some (.obj fields) := hpd
  obtain ⟨details, hvote⟩ := majority_vote_identical
    { s with quality_score := q } fields subs hpd1 hlk hwf
  have hcons := consistency_identical { s with quality_score := q }
    (.obj fields) (.obj fields) hpd1 htr htr _ hsim
  refine ⟨ts, details, hts, ?_⟩
  unfold generate_with_voting
  rw [List.filter_replicate, if_pos hv]
  rw [if_neg (by simp)]
  rw [hmap, except_bind_ok, hvote, except_bind_ok]
  dsimp only
  rw [hcons, except_bind_ok]
  rw [List.length_replicate, List.length_replicate]
  rfl

/-- A sample that parsed to the valid but tool-less plan
`{"subtasks": []}`. -/
def identicalNoToolSample : SampleResult :=
  { content := "\x7b \x22subtasks\x22: [] \x7d"
    parsed_data := Option.some (.obj [("subtasks", .arr [])])
    is_valid := true }

/-- C5 counterexample: five identical valid (parseable) samples whose
plan is `{"subtasks": []}` — no tool usage — yield a consistency score
of 0.3, not 1.0: `_calculate_similarity` contributes its 0.7
tool-overlap term only when both tool sets are nonempty, so even a
sample's similarity with itself is 0.3 without tools. -/
theorem C5_counterexample :
    ∃ r, generate_with_voting (List.replicate 5 identicalNoToolSample) =
      .ok r ∧ r.valid_sample_count = 5 ∧ r.consistency_score = 3/10 ∧
      r.consistency_score ≠ 1 := by
  obtain ⟨ts, details, hts, hrun⟩ := generate_with_voting_identical
    identicalNoToolSample [("subtasks", .arr [])] [] rfl rfl rfl rfl
  have hts0 : ts = [] := by
    have h0 : collect_tools (.arr ([] : List PyObj)) =
        .ok ([] : List PyObj) := rfl
    rw [h0] at hts
    exact (Except.ok.inj hts).symm
  subst hts0
  refine ⟨_, hrun, rfl, by norm_num, by norm_num⟩

/-- C5 amended: self-consistency voting (default majority strategy) over
5 identical valid samples yields a consistency score of 1.0 when the
shared plan is well-formed and uses at least one tool, and 0.3 when it
uses none (the 0.7 tool-overlap similarity term needs nonempty tool
sets); voting over samples that all fail to parse yields the empty plan
(`best_result = {}`) with `valid_sample_count = 0`. -/
theorem C5_voting_amended :
    (∀ (s : SampleResult) (fields : List (String × PyObj))
        (subs : List PyObj),
      s.is_valid = true →
      s.parsed_data = Option.some (.obj fields) →
      fields.lookup "subtasks" = Option.some (.arr subs) →
      subs.all wellFormedSubtask = true →
      ∃ ts details, collect_tools (.arr subs) = .ok ts ∧
        generate_with_voting (List.replicate 5 s) =
          .ok { best_result := .obj fields
                consistency_score := if ts.isEmpty then 3/10 else 1
                sample_count := 5
                valid_sample_count := 5
                voting_details := details }) ∧
    (∀ samples : List SampleResult,
      (∀ x ∈ samples, x.is_valid = false) →
      generate_with_voting samples =
        .ok { best_result := .obj []
              consistency_score := 0
              sample_count := samples.length
              valid_sample_count := 0
              voting_details := .obj
                [("error", .str "All samples failed to parse")] }) := by
  constructor
  · intro s fields subs hv hpd hlk hwf
    exact generate_with_voting_identical s fields subs hv hpd hlk hwf
  · intro samples hall
    unfold generate_with_voting
    have hfil : samples.filter (fun s => s.is_valid) = [] :=
      List.filter_eq_nil_iff.mpr (fun a ha => by simp [hall a ha])
    rw [hfil]
    rfl

/-- A sample that parsed to a one-subtask plan using the tool
`navigate`. -/
def identicalToolSample : SampleResult :=
  { content := "\x7b \x22subtasks\x22: [ \x7b \x22actions\x22: [ \x7b \x22tool\x22: \x22navigate\x22 \x7d ] \x7d ] \x7d"
    parsed_data := Option.some (.obj [("subtasks", .arr
      [.obj [("actions", .arr [.obj [("tool", .str "navigate")]])]])])
    is_valid := true }

/-- A sample whose parse failed. -/
def failedSample : SampleResult :=
  { content := "not json", is_valid := false
    parse_error := Option.some "Expecting value" }

/-- Witness for the amended C5 theorem: a concrete tool-using sample and
a concrete batch of five unparseable samples. -/
theorem C5_voting_amended_witness :
    (∃ ts details,
      collect_tools (.arr [.obj [("actions", .arr
        [.obj [("tool", .str "navigate")]])]]) = .ok ts ∧
      generate_with_voting (List.replicate 5 identicalToolSample) =
        .ok { best_result := .obj [("subtasks", .arr
                [.obj [("actions", .arr [.obj [("tool", .str "navigate")]])]])]
              consistency_score := if ts.isEmpty then 3/10 else 1
              sample_count := 5
              valid_sample_count := 5
              voting_details := details }) ∧
    generate_with_voting (List.replicate 5 failedSample) =
      .ok { best_result := .obj []
            consistency_score := 0
            sample_count := (List.replicate 5 failedSample).length
            valid_sample_count := 0
            voting_details := .obj
              [("error", .str "All samples failed to parse")] } :=
  ⟨C5_voting_amended.1 identicalToolSample
      [("subtasks", .arr [.obj [("actions", .arr
        [.obj [("tool", .str "navigate")]])]])]
      [.obj [("actions", .arr [.obj [("tool", .str "navigate")]])]]
      rfl rfl rfl (by decide),
   C5_voting_amended.2 (List.replicate 5 failedSample)
     (fun x hx => by
       rw [List.eq_of_mem_replicate hx]
       rfl)⟩

/-! ## `src/core/planner.py` — Planner plan-response parsing

`_parse_plan_response` composes text extraction/cleaning (pure regex and
scanning code, modelled as total string functions), `json.loads`
(returns a value or raises `JSONDecodeError`), structural validation
(`_validate_plan_data`, embedded concretely below), partial extraction
(`_extract_partial_json`, which catches its own exceptions and returns
`None` or a dict `{"subtasks": [...]}`) and the LLM-mediated repair
(`_fix_json_with_llm`, which also catches everything and returns `None`
or a parsed dict).  The external/textual pieces are function parameters,
universally quantified in the theorems. -/

/-- `json.JSONDecodeError`'s data (message and position). -/
structure JsonDecodeErr where
  msg : String
  pos : ℕ
  lineno : ℕ
  colno : ℕ
deriving DecidableEq, Repr

/-- `k in d` on a dict, as the pure membership test used where the value
is known to be a dict. -/
def pyHasKey (k : String) : PyObj → Bool
  | .obj fields => fields.any (fun f => f.1 == k)
  | _ => false

/-- The action-validation step of `Planner._validate_plan_data`
(planner.py lines 333-349): skip non-dict actions and actions without a
`"tool"`; backfill `"args"` and `"type"`. -/
def validate_action (action : PyObj) : Option PyObj :=
  match action with
  | .obj _ =>
    if pyHasKey "tool" action then
      let action :=
        if pyHasKey "args" action then action
        else action.setKey "args" (.obj [])
      let action :=
        if pyHasKey "type" action then action
        else action.setKey "type" (.str "gui")
      Option.some action
    else Option.none
  | _ => Option.none

/-- The subtask-validation step of `Planner._validate_plan_data`
(planner.py lines 316-352): skip non-dict subtasks; backfill `"id"`,
`"description"` and `"actions"`; validate the actions (iterating a
non-iterable `"actions"` value raises `TypeError`, as in Python). -/
def validate_subtask (idx : ℕ) (subtask : PyObj) :
    Except PyErr (Option PyObj) := do
  match subtask with
  | .obj _ =>
    let subtask :=
      if pyHasKey "id" subtask then subtask
      else subtask.setKey "id" (.str ("subtask_" ++ toString (idx + 1)))
    let subtask :=
      if pyHasKey "description" subtask then subtask
      else subtask.setKey "description"
        (.str ("Subtask " ++ toString (idx + 1)))
    let subtask :=
      if pyHasKey "actions" subtask then subtask
      else subtask.setKey "actions" (.arr [])
    let actions := (subtask.lookup "actions").getD (.arr [])
    let acts ← actions.items
    let validated := acts.foldl (fun acc a =>
      match validate_action a with
      | Option.some a2 => acc ++ [a2]
      | Option.none => acc) []
    return Option.some (subtask.setKey "actions" (.arr validated))
  | _ => return Option.none

/-- `Planner._validate_plan_data` (planner.py lines 297-355): raise
`ValueError` on non-dicts, ensure a `"subtasks"` key, validate each
subtask (iterating a non-iterable `"subtasks"` value raises
`TypeError`), and replace `"subtasks"` with the validated list. -/
def validate_plan_data (plan_data : PyObj) : Except PyErr PyObj := do
  match plan_data with
  | .obj _ =>
    let plan_data :=
      if pyHasKey "subtasks" plan_data then plan_data
      else plan_data.setKey "subtasks" (.arr [])
    let subsv := (plan_data.lookup "subtasks").getD (.arr [])
    let sitems ← subsv.items
    let validated ← sitems.enum.foldlM (fun acc p => do
      match ← validate_subtask p.1 p.2 with
      | Option.some st => return acc ++ [st]
      | Option.none => return acc) ([] : List PyObj)
    return plan_data.setKey "subtasks" (.arr validated)
  | _ => .error (.valueError "Plan data must be a dictionary")

/-- The single-subtask fallback plan (planner.py lines 641-649 /
663-671 / 685-693). -/
def fallback_plan (desc : String) : PyObj :=
  .obj [("subtasks", .arr
    [.obj [("id", .str "subtask_1"), ("description", .str desc),
           ("actions", .arr [])]])]

/-- `Planner._parse_plan_response` (planner.py lines 549-693).
Parameters: `loads` is `json.loads`; `extract`, `clean` and `fixCommon`
are `_extract_json_from_response`, `_clean_json_string` and
`_fix_common_json_issues` (pure text processing); `extractPartial` is
`_extract_partial_json` and `fixWithLLM` is `_fix_json_with_llm` (both
catch their own exceptions).  The function is total: the top-level
`except` chain handles `JSONDecodeError` (running the regex-repair,
partial-extraction and LLM-repair strategies before the fixed-text
fallback), `ValueError` (fallback carrying the error text) and every
other exception (fixed-text fallback). -/
def parse_plan_response (loads : String → Except JsonDecodeErr PyObj)
    (extract clean fixCommon : String → String)
    (extractPartial : String → Option PyObj)
    (fixWithLLM : String → JsonDecodeErr → Option PyObj)
    (response : String) : PyObj :=
  match loads (clean (extract response)) with
  | .ok plan_data =>
    match validate_plan_data plan_data with
    | .ok v => v
    | .error (.valueError m) => fallback_plan ("解析规划失败: " ++ m)
    | .error _ => fallback_plan "解析规划失败，使用默认任务"
  | .error e =>
    let s1 : Option PyObj :=
      match loads (fixCommon (clean (extract response))) with
      | .ok pd =>
        match validate_plan_data pd with
        | .ok v => if pyHasKey "subtasks" v then Option.some v
          else Option.none
        | .error _ => Option.none
      | .error _ => Option.none
    match s1 with
    | Option.some v => v
    | Option.none =>
      let s2 : Option PyObj :=
        match extractPartial response with
        | Option.some pd =>
          if pd.truthy then
            match PyObj.containsKey "subtasks" pd with
            | .ok true => Option.some pd
            | _ => Option.none
          else Option.none
        | Option.none => Option.none
      match s2 with
      | Option.some pd => pd
      | Option.none =>
        let s3 : Option PyObj :=
          match fixWithLLM response e with
          | Option.some fd =>
            if fd.truthy then
              match validate_plan_data fd with
              | .ok v => Option.some v
              | .error _ => Option.none
            else Option.none
          | Option.none => Option.none
        match s3 with
        | Option.some v => v
        | Option.none => fallback_plan "解析规划失败，使用默认任务"

/-- "A structurally valid plan": a dict whose `"subtasks"` key holds a
list. -/
def is_valid_plan_shape (j : PyObj) : Bool :=
  match j with
  | .obj fields =>
    match fields.lookup "subtasks" with
    | Option.some (.arr _) => true
    | _ => false
  | _ => false

/-- Inverting a successful `Except` bind. -/
theorem except_bind_eq_ok {ε α β : Type} {x : Except ε α}
    {f : α → Except ε β} {b : β} (h : (x >>= f) = .ok b) :
    ∃ a, x = .ok a ∧ f a = .ok b := by
  cases x with
  | error e => simp [Bind.bind, Except.bind] at h
  | ok a => exact ⟨a, rfl, h⟩

/-- After replacing a key, the dict still is a dict and the key maps to
the new value. -/
theorem setKey_obj_lookup (fields : List (String × PyObj)) (k : String)
    (v : PyObj) :
    ∃ fields2, (PyObj.obj fields).setKey k v = .obj fields2 ∧
      fields2.lookup k = Option.some v := by
  unfold PyObj.setKey
  dsimp only
  by_cases h : fields.any (fun f => f.1 == k) = true
  · rw [if_pos h]
    refine ⟨_, rfl, ?_⟩
    induction fields with
    | nil => simp at h
    | cons p rest ih =>
      by_cases hp : (p.1 == k) = true
      · have hk : (k == p.1) = true := by
          rw [beq_iff_eq] at hp ⊢
          exact hp.symm
        simp only [List.map_cons, hp, if_pos]
        simp [List.lookup]
      · have hk : (k == p.1) = false := by
          rw [Bool.not_eq_true, beq_eq_false_iff_ne] at hp
          rw [beq_eq_false_iff_ne]
          exact fun hh => hp hh.symm
        simp only [List.map_cons, hp, if_false]
        simp only [List.lookup, hk]
        apply ih
        simpa [hp] using h
  · rw [if_neg h]
    refine ⟨_, rfl, ?_⟩
    induction fields with
    | nil => simp [List.lookup]
    | cons p rest ih =>
      simp only [List.any_cons, Bool.or_eq_true, not_or] at h
      have hk : (k == p.1) = false := by
        have := h.1
        rw [Bool.not_eq_true, beq_eq_false_iff_ne] at this
        rw [beq_eq_false_iff_ne]
        exact fun hh => this hh.symm
      simp only [List.cons_append, List.lookup, hk]
      exact ih (by simpa using h.2)

/-- Whatever `_validate_plan_data` returns successfully is a dict with a
`"subtasks"` list. -/
theorem validate_plan_data_shape (j v : PyObj)
    (h : validate_plan_data j = .ok v) : is_valid_plan_shape v = true := by
  cases j with
  | obj fields =>
    unfold validate_plan_data at h
    dsimp only at h
    obtain ⟨sitems, hsit, h⟩ := except_bind_eq_ok h
    obtain ⟨validated, hval, h⟩ := except_bind_eq_ok h
    have hv : (if pyHasKey "subtasks" (PyObj.obj fields) then
        (PyObj.obj fields) else
        (PyObj.obj fields).setKey "subtasks" (.arr [])).setKey
          "subtasks" (.arr validated) = v := Except.ok.inj h
    by_cases hkey : pyHasKey "subtasks" (PyObj.obj fields) = true
    · rw [if_pos hkey] at hv
      obtain ⟨f2, hf2, hlk2⟩ := setKey_obj_lookup fields "subtasks"
        (.arr validated)
      rw [hf2] at hv
      rw [← hv]
      simp [is_valid_plan_shape, hlk2]
    · rw [if_neg hkey] at hv
      obtain ⟨f1, hf1, _⟩ := setKey_obj_lookup fields "subtasks" (.arr [])
      rw [hf1] at hv
      obtain ⟨f2, hf2, hlk2⟩ := setKey_obj_lookup f1 "subtasks"
        (.arr validated)
      rw [hf2] at hv
      rw [← hv]
      simp [is_valid_plan_shape, hlk2]
  | none => simp [validate_plan_data] at h
  | bool b => simp [validate_plan_data] at h
  | num q => simp [validate_plan_data] at h
  | str s => simp [validate_plan_data] at h
  | arr l => simp [validate_plan_data] at h

/-- A structurally valid plan passes the `"subtasks" in plan` test. -/
theorem hasKey_of_shape (v : PyObj) (h : is_valid_plan_shape v = true) :
    pyHasKey "subtasks" v = true := by
  cases v with
  | obj fields =>
    simp only [is_valid_plan_shape] at h
    rcases hlk : fields.lookup "subtasks" with _ | w
    · rw [hlk] at h
      simp at h
    · exact any_key_of_lookup fields "subtasks" w hlk
  | none => simp [is_valid_plan_shape] at h
  | bool b => simp [is_valid_plan_shape] at h
  | num q => simp [is_valid_plan_shape] at h
  | str s => simp [is_valid_plan_shape] at h
  | arr l => simp [is_valid_plan_shape] at h

/-- The fallback plan is structurally valid, whatever its description. -/
theorem fallback_plan_shape (desc : String) :
    is_valid_plan_shape (fallback_plan desc) = true := rfl


/-- C1 amended: for every oracle response string — and every behaviour
of the text-extraction, cleaning, JSON-parsing, partial-extraction and
LLM-repair collaborators (partial extraction, per its code, only ever
returns dicts of the form with key subtasks holding a list) — the
plan-response parser never raises (the embedded function is total) and
returns a dict with a subtasks list.  When JSON decoding fails and
regex repair, partial extraction and LLM-mediated repair all fail too,
it returns the single-subtask fallback plan whose description is the
fixed text 解析规划失败，使用默认任务 — not the error text.  The error
text appears in the description only on the validation-error path (the
response parses but is not a dict). -/
theorem C1_parse_plan_amended (loads : String → Except JsonDecodeErr PyObj)
    (extract clean fixCommon : String → String)
    (extractPartial : String → Option PyObj)
    (fixWithLLM : String → JsonDecodeErr → Option PyObj)
    (response : String)
    (hpj : ∀ s j, extractPartial s = Option.some j →
      ∃ l, j = .obj [("subtasks", .arr l)]) :
    is_valid_plan_shape (parse_plan_response loads extract clean fixCommon
      extractPartial fixWithLLM response) = true ∧
    (∀ e e2, loads (clean (extract response)) = .error e →
      loads (fixCommon (clean (extract response))) = .error e2 →
      extractPartial response = Option.none →
      fixWithLLM response e = Option.none →
      parse_plan_response loads extract clean fixCommon extractPartial
        fixWithLLM response = fallback_plan "解析规划失败，使用默认任务") ∧
    (∀ pd m, loads (clean (extract response)) = .ok pd →
      validate_plan_data pd = .error (.valueError m) →
      parse_plan_response loads extract clean fixCommon extractPartial
        fixWithLLM response = fallback_plan ("解析规划失败: " ++ m)) := by
  refine ⟨?_, ?_, ?_⟩
  · unfold parse_plan_response
    cases hload : loads (clean (extract response)) with
    | ok pd =>
      dsimp only
      cases hval : validate_plan_data pd with
      | ok v => exact validate_plan_data_shape pd v hval
      | error err =>
        cases err with
        | valueError m => exact fallback_plan_shape _
        | jsonDecode m p l c => exact fallback_plan_shape _
        | typeError m => exact fallback_plan_shape _
        | runtimeError m => exact fallback_plan_shape _
        | other m => exact fallback_plan_shape _
    | error e =>
      dsimp only
      cases hload2 : loads (fixCommon (clean (extract response))) with
      | ok pd2 =>
        dsimp only
        cases hval2 : validate_plan_data pd2 with
        | ok v =>
          have hshape := validate_plan_data_shape pd2 v hval2
          dsimp only
          rw [if_pos (hasKey_of_shape v hshape)]
          exact hshape
        | error err =>
          dsimp only
          cases hpart : extractPartial response with
          | some pd3 =>
            obtain ⟨l, rfl⟩ := hpj response pd3 hpart
            rfl
          | none =>
            dsimp only
            cases hfix : fixWithLLM response e with
            | some fd =>
              dsimp only
              by_cases htr : fd.truthy = true
              · rw [if_pos htr]
                cases hval3 : validate_plan_data fd with
                | ok v => exact validate_plan_data_shape fd v hval3
                | error err2 => exact fallback_plan_shape _
              · rw [if_neg htr]
                exact fallback_plan_shape _
            | none => exact fallback_plan_shape _
      | error e2 =>
        dsimp only
        cases hpart : extractPartial response with
        | some pd3 =>
          obtain ⟨l, rfl⟩ := hpj response pd3 hpart
          rfl
        | none =>
          dsimp only
          cases hfix : fixWithLLM response e with
          | some fd =>
            dsimp only
            by_cases htr : fd.truthy = true
            · rw [if_pos htr]
              cases hval3 : validate_plan_data fd with
              | ok v => exact validate_plan_data_shape fd v hval3
              | error err2 => exact fallback_plan_shape _
            · rw [if_neg htr]
              exact fallback_plan_shape _
          | none => exact fallback_plan_shape _
  · intro e e2 h1 h2 h3 h4
    unfold parse_plan_response
    rw [h1]
    dsimp only
    rw [h2]
    dsimp only
    rw [h3]
    dsimp only
    rw [h4]
  · intro pd m h1 h2
    unfold parse_plan_response
    rw [h1]
    dsimp only
    rw [h2]

/-- C1 counterexample: with a decoder that always fails with message
"Expecting value" and all repair strategies failing, the parser returns
the fallback plan whose single subtask's description is the fixed text
解析规划失败，使用默认任务; the error text does not occur in that
description, contradicting the claim that the fallback plan carries the
error text as its description. -/
theorem C1_counterexample :
    parse_plan_response (fun _ => .error ⟨"Expecting value", 0, 1, 1⟩)
        id id id (fun _ => Option.none) (fun _ _ => Option.none) "not json" =
      fallback_plan "解析规划失败，使用默认任务" ∧
    (fallback_plan "解析规划失败，使用默认任务").lookup "subtasks" =
      Option.some (.arr [.obj [("id", .str "subtask_1"),
        ("description", .str "解析规划失败，使用默认任务"),
        ("actions", .arr [])]]) ∧
    pySubstr "Expecting value" "解析规划失败，使用默认任务" = false :=
  ⟨rfl, rfl, by decide⟩

/-- Witness: the amended C1 theorem applied at a concrete all-failing
instantiation yields the fixed-text fallback plan. -/
theorem C1_parse_plan_amended_witness :
    parse_plan_response (fun _ => .error ⟨"Expecting value", 0, 1, 1⟩)
        id id id (fun _ => Option.none) (fun _ _ => Option.none) "bad" =
      fallback_plan "解析规划失败，使用默认任务" :=
  (C1_parse_plan_amended (fun _ => .error ⟨"Expecting value", 0, 1, 1⟩)
      id id id (fun _ => Option.none) (fun _ _ => Option.none) "bad"
      (fun _ _ h => Option.noConfusion h)).2.1
    ⟨"Expecting value", 0, 1, 1⟩ ⟨"Expecting value", 0, 1, 1⟩ rfl rfl rfl rfl
